import Mathlib

/-!
Verification development for the JSONPlaceholder demo client (src/script.js).

The script is shallowly embedded: JavaScript values are modelled by the
inductive `Json`, JS object-literal spread by `setKey`/`spreadInto`, and the
stateful parts (the `fetch`-based helper `makeRequest`, the endpoint wrapper
functions and the demo drivers) as explicit state-passing computations over a
trace of observable effects (`Effect`): issued fetches, JSON-parse attempts,
`console.log` lines and `console.error` lines.  The network is an oracle
(`World`) mapping the index of each issued fetch to its outcome.  Fallible
JavaScript expressions (property access on nullish values, calling `.filter`
or `.substring` on values that lack them) are modelled with `Except`.
-/

/-- A JavaScript value as this script can observe one: JSON values plus
`undefined`.  Numbers are modelled as integers, which covers every numeric
value the script constructs or receives from the JSONPlaceholder API. -/
inductive Json where
  | undef : Json
  | null : Json
  | bool (b : Bool) : Json
  | num (n : Int) : Json
  | str (s : String) : Json
  | arr (elems : List Json) : Json
  | obj (fields : List (String × Json)) : Json

mutual

/-- JS string coercion (template-literal interpolation) of a value. -/
def Json.toDisplay : Json → String
  | Json.undef => "undefined"
  | Json.null => "null"
  | Json.bool b => cond b "true" "false"
  | Json.num n => toString n
  | Json.str s => s
  | Json.arr xs => String.intercalate "," (displayList xs)
  | Json.obj _ => "[object Object]"

/-- Array `toString`: elements joined by commas, nullish elements empty. -/
def displayList : List Json → List String
  | [] => []
  | Json.undef :: rest => "" :: displayList rest
  | Json.null :: rest => "" :: displayList rest
  | j :: rest => Json.toDisplay j :: displayList rest

end

/-- JS property read `v[k]` for a string key: errors (TypeError) on nullish
receivers, looks keys up on objects, exposes `length` on arrays and strings,
and yields `undefined` on other primitives. -/
def Json.fieldE : Json → String → Except String Json
  | Json.null, k =>
      Except.error ("TypeError: Cannot read properties of null (reading " ++ k ++ ")")
  | Json.undef, k =>
      Except.error ("TypeError: Cannot read properties of undefined (reading " ++ k ++ ")")
  | Json.obj fs, k =>
      Except.ok (match fs.find? (fun p => p.1 == k) with
        | some p => p.2
        | none => Json.undef)
  | Json.arr xs, k => Except.ok (if k == "length" then Json.num xs.length else Json.undef)
  | Json.str s, k => Except.ok (if k == "length" then Json.num s.length else Json.undef)
  | _, _ => Except.ok Json.undef

/-- JS property read `v.length`. -/
def Json.lengthE (j : Json) : Except String Json :=
  Json.fieldE j "length"

/-- JS indexing `v[i]` by a small nonnegative integer. -/
def Json.indexE : Json → Nat → Except String Json
  | Json.null, i =>
      Except.error ("TypeError: Cannot read properties of null (reading " ++ toString i ++ ")")
  | Json.undef, i =>
      Except.error ("TypeError: Cannot read properties of undefined (reading " ++ toString i ++ ")")
  | Json.arr xs, i => Except.ok (xs.getD i Json.undef)
  | Json.str s, i =>
      Except.ok (match s.toList.get? i with
        | some c => Json.str (String.singleton c)
        | none => Json.undef)
  | Json.obj fs, i =>
      Except.ok (match fs.find? (fun p => p.1 == toString i) with
        | some p => p.2
        | none => Json.undef)
  | _, _ => Except.ok Json.undef

/-- JS truthiness of a value. -/
def Json.truthy : Json → Bool
  | Json.undef => false
  | Json.null => false
  | Json.bool b => b
  | Json.num n => decide (n ≠ 0)
  | Json.str s => decide (s ≠ "")
  | Json.arr _ => true
  | Json.obj _ => true

/-- Hexadecimal digit used by the JSON string escaper. -/
def hexDigit (n : Nat) : Char :=
  if n < 10 then Char.ofNat (48 + n) else Char.ofNat (87 + n)

/-- Escape one character as `JSON.stringify` renders it inside a string. -/
def escChar (c : Char) : String :=
  if c = Char.ofNat 34 then "\\\""
  else if c = Char.ofNat 92 then "\\\\"
  else if c = Char.ofNat 10 then "\\n"
  else if c = Char.ofNat 9 then "\\t"
  else if c = Char.ofNat 13 then "\\r"
  else if c.toNat < 32 then
    String.mk [Char.ofNat 92, Char.ofNat 117, Char.ofNat 48, Char.ofNat 48,
      hexDigit (c.toNat / 16), hexDigit (c.toNat % 16)]
  else String.singleton c

/-- Render a string as a quoted JSON string literal. -/
def quoteStr (s : String) : String :=
  "\"" ++ String.join (s.toList.map escChar) ++ "\""

mutual

/-- `JSON.stringify`: `none` models the JavaScript result `undefined`
(produced for an `undefined` argument).  Object fields whose value is
`undefined` are omitted; `undefined` array elements render as `null`. -/
def stringify : Json → Option String
  | Json.undef => none
  | Json.null => some "null"
  | Json.bool b => some (cond b "true" "false")
  | Json.num n => some (toString n)
  | Json.str s => some (quoteStr s)
  | Json.arr xs => some ("[" ++ String.intercalate "," (stringifyElems xs) ++ "]")
  | Json.obj fs => some ("\x7b" ++ String.intercalate "," (stringifyFields fs) ++ "\x7d")

def stringifyElems : List Json → List String
  | [] => []
  | x :: xs => ((stringify x).getD "null") :: stringifyElems xs

def stringifyFields : List (String × Json) → List String
  | [] => []
  | (k, v) :: fs =>
      match stringify v with
      | none => stringifyFields fs
      | some s => (quoteStr k ++ ":" ++ s) :: stringifyFields fs

end

/-- JS object assignment of key `k` to value `v`: replaces the value at the
position where `k` already occurs, otherwise appends the new key at the end.
This is the per-key effect of evaluating a later entry of an object literal
(including entries contributed by spread). -/
def setKey {α : Type} : List (String × α) → String → α → List (String × α)
  | [], k, v => [(k, v)]
  | (k1, v1) :: rest, k, v =>
      if k1 = k then (k, v) :: rest else (k1, v1) :: setKey rest k v

/-- Spread `ext` into an object that already holds `base`: each entry of
`ext` is assigned in order, so a repeated key keeps its original position but
takes the later value, exactly as JS object spread behaves. -/
def spreadInto {α : Type} (base ext : List (String × α)) : List (String × α) :=
  ext.foldl (fun acc p => setKey acc p.1 p.2) base

/-- First-occurrence key lookup on an association list (JS objects never hold
a key twice, so for lists that model objects this is plain key lookup). -/
def lookupField {α : Type} (fs : List (String × α)) (k : String) : Option α :=
  (fs.find? (fun p => p.1 == k)).map (fun p => p.2)

/-- Fields produced by spreading the elements of an array (or the characters
of a string) into an object literal: index keys `0`, `1`, ... -/
def indexedFields : Nat → List Json → List (String × Json)
  | _, [] => []
  | i, x :: xs => (toString i, x) :: indexedFields (i + 1) xs

/-- Spread a JS value into an object literal that already holds `base`:
objects contribute their fields, arrays and strings contribute index keys,
every other primitive contributes nothing. -/
def objSpread (base : List (String × Json)) : Json → List (String × Json)
  | Json.obj fs => spreadInto base fs
  | Json.arr xs => spreadInto base (indexedFields 0 xs)
  | Json.str s =>
      spreadInto base (indexedFields 0 (s.toList.map (fun c => Json.str (String.singleton c))))
  | _ => base

/-- The second argument of `fetch` as `makeRequest` builds it.  The script
only ever places `method`, `headers` and `body` keys in its options objects,
so the init object is modelled with exactly these fields; `method := none`
means the key is absent and `fetch` uses its default method GET. -/
structure FetchInit where
  method : Option String
  headers : List (String × String)
  body : Option String
deriving Repr, DecidableEq

/-- The options argument of `makeRequest`.  A field holding `none` models an
absent key.  No caller in the script passes any key beyond these three. -/
structure RequestOptions where
  method : Option String := none
  headers : Option (List (String × String)) := none
  body : Option String := none
deriving Repr, DecidableEq

/-- The default method `fetch` uses when the init object carries no
`method` key. -/
def effectiveMethod (i : FetchInit) : String :=
  i.method.getD "GET"

/-- The init object `makeRequest` passes to `fetch`, namely the literal
whose first entry is `headers: \x7b Content-Type, ...options.headers \x7d`
followed by `...options`.  Because the spread of `options` comes after the
`headers` entry, an options object that carries its own `headers` key
overwrites the merged map entirely; only when `options` has no `headers` key
does the merged default survive. -/
def mkFetchInit (o : RequestOptions) : FetchInit :=
  let merged := spreadInto [("Content-Type", "application/json")] (o.headers.getD [])
  { method := o.method
    headers := o.headers.getD merged
    body := o.body }

/-- One observable step of the script. -/
inductive Effect where
  | fetched (url : String) (init : FetchInit) : Effect
  | jsonParsed : Effect
  | logged (msg : String) : Effect
  | errorLogged (msg : String) : Effect
deriving Repr, DecidableEq

/-- What the network hands back for one `fetch`: either a rejected promise
(network failure) or a response with a status and a body.  `bodyJson` is the
outcome of `response.json()` on that body: `some v` when the body parses to
the value `v`, `none` when parsing raises. -/
structure HttpResponse where
  status : Nat
  bodyJson : Option Json

inductive FetchOutcome where
  | networkError (msg : String) : FetchOutcome
  | got (resp : HttpResponse) : FetchOutcome

/-- The network oracle: the outcome of the n-th fetch the program issues. -/
structure World where
  oracle : Nat → FetchOutcome

/-- Program state threaded through the embedding: how many fetches have been
issued so far (the oracle index) and the effect trace. -/
structure St where
  calls : Nat
  trace : List Effect

/-- Append one effect to the trace. -/
def emit (s : St) (e : Effect) : St :=
  { calls := s.calls, trace := s.trace ++ [e] }

/-- Initial state: no fetches issued, empty trace. -/
def st0 : St :=
  { calls := 0, trace := [] }

/-- A world whose every fetch has the same outcome. -/
def constWorld (o : FetchOutcome) : World :=
  { oracle := fun _ => o }

/-- The fetches recorded in a trace, in order. -/
def fetches : List Effect → List (String × FetchInit)
  | [] => []
  | Effect.fetched u i :: t => (u, i) :: fetches t
  | Effect.jsonParsed :: t => fetches t
  | Effect.logged _ :: t => fetches t
  | Effect.errorLogged _ :: t => fetches t

/-- Number of fetches recorded in a trace. -/
def fetchCount (t : List Effect) : Nat :=
  (fetches t).length

/-- Number of JSON-parse attempts recorded in a trace. -/
def countParses : List Effect → Nat
  | [] => 0
  | Effect.jsonParsed :: t => countParses t + 1
  | _ :: t => countParses t

/-- `response.ok`: status in the inclusive range 200 to 299. -/
def respOk (status : Nat) : Bool :=
  decide (200 ≤ status) && decide (status ≤ 299)

/-- Whether a fetch outcome makes `makeRequest` fail: the promise rejects,
the status is not ok, or a body that must be parsed fails to parse. -/
def outcomeFails : FetchOutcome → Bool
  | FetchOutcome.networkError _ => true
  | FetchOutcome.got r => !respOk r.status || (decide (r.status ≠ 204) && r.bodyJson.isNone)

/-- The base URL of the wrapped service (line 11 of the script). -/
def API_BASE_URL : String :=
  "https://jsonplaceholder.typicode.com"

/-- The request helper (lines 14 to 38).  It fetches the URL with the init
object of `mkFetchInit`, throws on a non-ok status, short-circuits a 204
status to a success marker without touching the body, otherwise parses the
body as JSON; any failure is logged with `console.error` and rethrown. -/
def makeRequest (w : World) (url : String) (options : RequestOptions) (s : St) :
    Except String Json × St :=
  let init := mkFetchInit options
  let outcome := w.oracle s.calls
  let s1 : St := { calls := s.calls + 1, trace := s.trace ++ [Effect.fetched url init] }
  match outcome with
  | FetchOutcome.networkError msg =>
      (Except.error msg, emit s1 (Effect.errorLogged ("API Request failed: " ++ msg)))
  | FetchOutcome.got resp =>
      if respOk resp.status = false then
        (Except.error ("HTTP error! status: " ++ toString resp.status),
         emit s1 (Effect.errorLogged
           ("API Request failed: HTTP error! status: " ++ toString resp.status)))
      else if resp.status = 204 then
        (Except.ok (Json.obj [("success", Json.bool true)]), s1)
      else
        match resp.bodyJson with
        | some j => (Except.ok j, emit s1 Effect.jsonParsed)
        | none =>
            (Except.error "SyntaxError: Unexpected end of JSON input",
             emit (emit s1 Effect.jsonParsed)
               (Effect.errorLogged "API Request failed: SyntaxError: Unexpected end of JSON input"))

/-- getAllPosts (lines 47 to 52). -/
def getAllPosts (w : World) (s : St) : Except String Json × St :=
  let s := emit s (Effect.logged "📋 Fetching all posts...")
  match makeRequest w (API_BASE_URL ++ "/posts") {} s with
  | (Except.error e, s) => (Except.error e, s)
  | (Except.ok posts, s) =>
      match Json.lengthE posts with
      | Except.error e => (Except.error e, s)
      | Except.ok len =>
          (Except.ok posts,
           emit s (Effect.logged ("✅ Retrieved " ++ Json.toDisplay len ++ " posts")))

/-- getPost (lines 57 to 62). -/
def getPost (w : World) (id : Json) (s : St) : Except String Json × St :=
  let s := emit s (Effect.logged ("📄 Fetching post " ++ Json.toDisplay id ++ "..."))
  match makeRequest w (API_BASE_URL ++ "/posts/" ++ Json.toDisplay id) {} s with
  | (Except.error e, s) => (Except.error e, s)
  | (Except.ok post, s) =>
      match Json.fieldE post "title" with
      | Except.error e => (Except.error e, s)
      | Except.ok title =>
          (Except.ok post,
           emit s (Effect.logged ("✅ Retrieved post: \"" ++ Json.toDisplay title ++ "\"")))

/-- getPostsByUser (lines 67 to 72). -/
def getPostsByUser (w : World) (userId : Json) (s : St) : Except String Json × St :=
  let s := emit s (Effect.logged ("👤 Fetching posts by user " ++ Json.toDisplay userId ++ "..."))
  match makeRequest w (API_BASE_URL ++ "/posts?userId=" ++ Json.toDisplay userId) {} s with
  | (Except.error e, s) => (Except.error e, s)
  | (Except.ok posts, s) =>
      match Json.lengthE posts with
      | Except.error e => (Except.error e, s)
      | Except.ok len =>
          (Except.ok posts,
           emit s (Effect.logged ("✅ Found " ++ Json.toDisplay len ++ " posts by user "
             ++ Json.toDisplay userId)))

/-- createPost (lines 77 to 85). -/
def createPost (w : World) (postData : Json) (s : St) : Except String Json × St :=
  let s := emit s (Effect.logged "📝 Creating new post...")
  match makeRequest w (API_BASE_URL ++ "/posts")
      { method := some "POST", body := stringify postData } s with
  | (Except.error e, s) => (Except.error e, s)
  | (Except.ok newPost, s) =>
      match Json.fieldE newPost "id" with
      | Except.error e => (Except.error e, s)
      | Except.ok newId =>
          (Except.ok newPost,
           emit s (Effect.logged ("✅ Created post with ID: " ++ Json.toDisplay newId)))

/-- updatePost (lines 90 to 98).  The body is the literal
`\x7b id, ...postData \x7d`, so a later `id` key contributed by `postData`
overrides the value of the positional `id` argument. -/
def updatePost (w : World) (id : Json) (postData : Json) (s : St) : Except String Json × St :=
  let s := emit s (Effect.logged ("📝 Updating post " ++ Json.toDisplay id ++ "..."))
  match makeRequest w (API_BASE_URL ++ "/posts/" ++ Json.toDisplay id)
      { method := some "PUT",
        body := stringify (Json.obj (objSpread [("id", id)] postData)) } s with
  | (Except.error e, s) => (Except.error e, s)
  | (Except.ok updated, s) =>
      (Except.ok updated, emit s (Effect.logged ("✅ Updated post " ++ Json.toDisplay id)))

/-- patchPost (lines 103 to 111). -/
def patchPost (w : World) (id : Json) (patchData : Json) (s : St) : Except String Json × St :=
  let s := emit s (Effect.logged ("✏️ Patching post " ++ Json.toDisplay id ++ "..."))
  match makeRequest w (API_BASE_URL ++ "/posts/" ++ Json.toDisplay id)
      { method := some "PATCH", body := stringify patchData } s with
  | (Except.error e, s) => (Except.error e, s)
  | (Except.ok patched, s) =>
      (Except.ok patched, emit s (Effect.logged ("✅ Patched post " ++ Json.toDisplay id)))

/-- deletePost (lines 116 to 123). -/
def deletePost (w : World) (id : Json) (s : St) : Except String Json × St :=
  let s := emit s (Effect.logged ("🗑️ Deleting post " ++ Json.toDisplay id ++ "..."))
  match makeRequest w (API_BASE_URL ++ "/posts/" ++ Json.toDisplay id)
      { method := some "DELETE" } s with
  | (Except.error e, s) => (Except.error e, s)
  | (Except.ok result, s) =>
      (Except.ok result, emit s (Effect.logged ("✅ Deleted post " ++ Json.toDisplay id)))

/-- getAllComments (lines 132 to 137). -/
def getAllComments (w : World) (s : St) : Except String Json × St :=
  let s := emit s (Effect.logged "💬 Fetching all comments...")
  match makeRequest w (API_BASE_URL ++ "/comments") {} s with
  | (Except.error e, s) => (Except.error e, s)
  | (Except.ok comments, s) =>
      match Json.lengthE comments with
      | Except.error e => (Except.error e, s)
      | Except.ok len =>
          (Except.ok comments,
           emit s (Effect.logged ("✅ Retrieved " ++ Json.toDisplay len ++ " comments")))

/-- getCommentsForPost (lines 142 to 150). -/
def getCommentsForPost (w : World) (postId : Json) (s : St) : Except String Json × St :=
  let s := emit s (Effect.logged ("💬 Fetching comments for post "
    ++ Json.toDisplay postId ++ "..."))
  match makeRequest w (API_BASE_URL ++ "/posts/" ++ Json.toDisplay postId ++ "/comments") {} s with
  | (Except.error e, s) => (Except.error e, s)
  | (Except.ok comments, s) =>
      match Json.lengthE comments with
      | Except.error e => (Except.error e, s)
      | Except.ok len =>
          (Except.ok comments,
           emit s (Effect.logged ("✅ Found " ++ Json.toDisplay len ++ " comments for post "
             ++ Json.toDisplay postId)))

/-- getAllUsers (lines 159 to 164). -/
def getAllUsers (w : World) (s : St) : Except String Json × St :=
  let s := emit s (Effect.logged "👥 Fetching all users...")
  match makeRequest w (API_BASE_URL ++ "/users") {} s with
  | (Except.error e, s) => (Except.error e, s)
  | (Except.ok users, s) =>
      match Json.lengthE users with
      | Except.error e => (Except.error e, s)
      | Except.ok len =>
          (Except.ok users,
           emit s (Effect.logged ("✅ Retrieved " ++ Json.toDisplay len ++ " users")))

/-- getUser (lines 169 to 174). -/
def getUser (w : World) (id : Json) (s : St) : Except String Json × St :=
  let s := emit s (Effect.logged ("👤 Fetching user " ++ Json.toDisplay id ++ "..."))
  match makeRequest w (API_BASE_URL ++ "/users/" ++ Json.toDisplay id) {} s with
  | (Except.error e, s) => (Except.error e, s)
  | (Except.ok user, s) =>
      match Json.fieldE user "name" with
      | Except.error e => (Except.error e, s)
      | Except.ok nm =>
          match Json.fieldE user "email" with
          | Except.error e => (Except.error e, s)
          | Except.ok em =>
              (Except.ok user,
               emit s (Effect.logged ("✅ Retrieved user: " ++ Json.toDisplay nm
                 ++ " (" ++ Json.toDisplay em ++ ")")))

/-- getUserAlbums (lines 179 to 184). -/
def getUserAlbums (w : World) (userId : Json) (s : St) : Except String Json × St :=
  let s := emit s (Effect.logged ("📸 Fetching albums for user "
    ++ Json.toDisplay userId ++ "..."))
  match makeRequest w (API_BASE_URL ++ "/users/" ++ Json.toDisplay userId ++ "/albums") {} s with
  | (Except.error e, s) => (Except.error e, s)
  | (Except.ok albums, s) =>
      match Json.lengthE albums with
      | Except.error e => (Except.error e, s)
      | Except.ok len =>
          (Except.ok albums,
           emit s (Effect.logged ("✅ Found " ++ Json.toDisplay len ++ " albums for user "
             ++ Json.toDisplay userId)))

/-- getUserTodos (lines 189 to 194). -/
def getUserTodos (w : World) (userId : Json) (s : St) : Except String Json × St :=
  let s := emit s (Effect.logged ("✅ Fetching todos for user "
    ++ Json.toDisplay userId ++ "..."))
  match makeRequest w (API_BASE_URL ++ "/users/" ++ Json.toDisplay userId ++ "/todos") {} s with
  | (Except.error e, s) => (Except.error e, s)
  | (Except.ok todos, s) =>
      match Json.lengthE todos with
      | Except.error e => (Except.error e, s)
      | Except.ok len =>
          (Except.ok todos,
           emit s (Effect.logged ("✅ Found " ++ Json.toDisplay len ++ " todos for user "
             ++ Json.toDisplay userId)))

/-- getAllAlbums (lines 203 to 208). -/
def getAllAlbums (w : World) (s : St) : Except String Json × St :=
  let s := emit s (Effect.logged "📚 Fetching all albums...")
  match makeRequest w (API_BASE_URL ++ "/albums") {} s with
  | (Except.error e, s) => (Except.error e, s)
  | (Except.ok albums, s) =>
      match Json.lengthE albums with
      | Except.error e => (Except.error e, s)
      | Except.ok len =>
          (Except.ok albums,
           emit s (Effect.logged ("✅ Retrieved " ++ Json.toDisplay len ++ " albums")))

/-- getAlbumPhotos (lines 213 to 218). -/
def getAlbumPhotos (w : World) (albumId : Json) (s : St) : Except String Json × St :=
  let s := emit s (Effect.logged ("📸 Fetching photos from album "
    ++ Json.toDisplay albumId ++ "..."))
  match makeRequest w (API_BASE_URL ++ "/albums/" ++ Json.toDisplay albumId ++ "/photos") {} s with
  | (Except.error e, s) => (Except.error e, s)
  | (Except.ok photos, s) =>
      match Json.lengthE photos with
      | Except.error e => (Except.error e, s)
      | Except.ok len =>
          (Except.ok photos,
           emit s (Effect.logged ("✅ Found " ++ Json.toDisplay len ++ " photos in album "
             ++ Json.toDisplay albumId)))

/-- getAllPhotos (lines 223 to 228). -/
def getAllPhotos (w : World) (s : St) : Except String Json × St :=
  let s := emit s (Effect.logged "🖼️ Fetching all photos...")
  match makeRequest w (API_BASE_URL ++ "/photos") {} s with
  | (Except.error e, s) => (Except.error e, s)
  | (Except.ok photos, s) =>
      match Json.lengthE photos with
      | Except.error e => (Except.error e, s)
      | Except.ok len =>
          (Except.ok photos,
           emit s (Effect.logged ("✅ Retrieved " ++ Json.toDisplay len ++ " photos")))

/-- getAllTodos (lines 237 to 242). -/
def getAllTodos (w : World) (s : St) : Except String Json × St :=
  let s := emit s (Effect.logged "📝 Fetching all todos...")
  match makeRequest w (API_BASE_URL ++ "/todos") {} s with
  | (Except.error e, s) => (Except.error e, s)
  | (Except.ok todos, s) =>
      match Json.lengthE todos with
      | Except.error e => (Except.error e, s)
      | Except.ok len =>
          (Except.ok todos,
           emit s (Effect.logged ("✅ Retrieved " ++ Json.toDisplay len ++ " todos")))

/-- The callback-by-callback run of `todos.filter(todo => todo.completed)`:
truthiness of the `completed` property decides membership, and a property
read that throws (a nullish element) aborts the whole filter. -/
def filterCompleted : List Json → Except String (List Json)
  | [] => Except.ok []
  | t :: ts =>
      match Json.fieldE t "completed" with
      | Except.error e => Except.error e
      | Except.ok c =>
          match filterCompleted ts with
          | Except.error e => Except.error e
          | Except.ok rest =>
              Except.ok (if Json.truthy c then t :: rest else rest)

/-- `todos.filter(todo => todo.completed)` on an arbitrary value: a TypeError
when the receiver has no `filter` method. -/
def jsFilterCompleted : Json → Except String Json
  | Json.arr xs =>
      match filterCompleted xs with
      | Except.error e => Except.error e
      | Except.ok kept => Except.ok (Json.arr kept)
  | _ => Except.error "TypeError: todos.filter is not a function"

/-- getCompletedTodos (lines 247 to 253): fetches `/todos` and filters the
result client-side by the `completed` flag. -/
def getCompletedTodos (w : World) (s : St) : Except String Json × St :=
  let s := emit s (Effect.logged "✅ Fetching completed todos...")
  match makeRequest w (API_BASE_URL ++ "/todos") {} s with
  | (Except.error e, s) => (Except.error e, s)
  | (Except.ok todos, s) =>
      match jsFilterCompleted todos with
      | Except.error e => (Except.error e, s)
      | Except.ok completed =>
          match Json.lengthE completed with
          | Except.error e => (Except.error e, s)
          | Except.ok len =>
              (Except.ok completed,
               emit s (Effect.logged ("✅ Found " ++ Json.toDisplay len ++ " completed todos")))

/-- A row of `n` dashes, as produced by the repeat call on a dash. -/
def dashes (n : Nat) : String :=
  String.mk (List.replicate n '-')

/-- The demo expression on line 303 reading the first comment:
index 0, then optional chaining on `body`, then `substring(0, 50)`.
A nullish first element short-circuits the whole chain to `undefined`;
otherwise `substring` exists only on a string `body` value. -/
def previewE (comments : Json) : Except String String :=
  match Json.indexE comments 0 with
  | Except.error e => Except.error e
  | Except.ok Json.undef => Except.ok "undefined"
  | Except.ok Json.null => Except.ok "undefined"
  | Except.ok c =>
      match Json.fieldE c "body" with
      | Except.error e => Except.error e
      | Except.ok (Json.str b) => Except.ok (String.mk (b.toList.take 50))
      | Except.ok Json.undef =>
          Except.error "TypeError: Cannot read properties of undefined (reading substring)"
      | Except.ok Json.null =>
          Except.error "TypeError: Cannot read properties of null (reading substring)"
      | Except.ok _ => Except.error "TypeError: substring is not a function"

/-- The demo expression on line 324 reading the first photo title:
index 0 with optional chaining on `title`. -/
def samplePhotoE (photos : Json) : Except String String :=
  match Json.indexE photos 0 with
  | Except.error e => Except.error e
  | Except.ok Json.undef => Except.ok "undefined"
  | Except.ok Json.null => Except.ok "undefined"
  | Except.ok p =>
      match Json.fieldE p "title" with
      | Except.error e => Except.error e
      | Except.ok t => Except.ok (Json.toDisplay t)

/-- Decimal formatting of `100 * c / t` with one digit after the point,
approximating the floating-point evaluation and `toFixed(1)` of line 334 by
exact rational rounding.  The string is only ever interpolated into a
`console.log` line. -/
def toFixed1 (c t : Nat) : String :=
  if t = 0 then (if c = 0 then "NaN" else "Infinity")
  else
    let tenths := (1000 * c + t / 2) / t
    toString (tenths / 10) ++ "." ++ toString (tenths % 10)

/-- The completion-rate expression of line 334: reads both lengths (which
can throw on a nullish receiver) and formats the percentage; a non-numeric
length makes the arithmetic produce NaN. -/
def completionRateE (completedTodos todos : Json) : Except String String :=
  match Json.lengthE completedTodos with
  | Except.error e => Except.error e
  | Except.ok (Json.num c) =>
      match Json.lengthE todos with
      | Except.error e => Except.error e
      | Except.ok (Json.num t) => Except.ok (toFixed1 c.toNat t.toNat)
      | Except.ok _ => Except.ok "NaN"
  | Except.ok _ =>
      match Json.lengthE todos with
      | Except.error e => Except.error e
      | Except.ok _ => Except.ok "NaN"

/-- Sequential composition of one awaited call with the rest of a try-block:
a raised error (a rejected awaited promise) aborts, a value is passed on.
This is the control flow of `const x = await f(...)` inside `try`. -/
def demoSeq (F : Except String Json × St) (G : Json → St → Except String Unit × St) :
    Except String Unit × St :=
  match F with
  | (Except.error e, t) => (Except.error e, t)
  | (Except.ok v, t) => G v t

/-- Sequential composition of one fallible pure expression (a property read
or a method call that can raise a TypeError) with the rest of a try-block. -/
def demoRead {α : Type} (s : St) (x : Except String α) (G : α → Except String Unit × St) :
    Except String Unit × St :=
  match x with
  | Except.error e => (Except.error e, s)
  | Except.ok v => G v

/-- The tail of the full demo try-block (lines 334 to 349): the completion
rate computation and the summary logs, applied to the values threaded
through the earlier demo steps. -/
def demoSummary (userPosts comments users albums album1Photos todos completedTodos : Json)
    (s : St) : Except String Unit × St :=
  demoRead s (completionRateE completedTodos todos) (fun rate =>
  let s := emit s (Effect.logged ("📊 Todo completion rate: " ++ rate ++ "%"))
  let s := emit s (Effect.logged "\n")
  let s := emit s (Effect.logged "📊 DEMO SUMMARY")
  let s := emit s (Effect.logged (dashes 20))
  demoRead s (Json.lengthE userPosts) (fun upLen =>
  let s := emit s (Effect.logged ("✅ Posts: " ++ Json.toDisplay upLen ++ " by user 1"))
  demoRead s (Json.lengthE comments) (fun cLen =>
  let s := emit s (Effect.logged ("💬 Comments: " ++ Json.toDisplay cLen ++ " on post 1"))
  demoRead s (Json.lengthE users) (fun uLen =>
  let s := emit s (Effect.logged ("👥 Users: " ++ Json.toDisplay uLen ++ " total"))
  demoRead s (Json.lengthE albums) (fun aLen =>
  let s := emit s (Effect.logged ("📚 Albums: " ++ Json.toDisplay aLen ++ " total"))
  demoRead s (Json.lengthE album1Photos) (fun pLen =>
  let s := emit s (Effect.logged ("🖼️ Photos: " ++ Json.toDisplay pLen ++ " in album 1"))
  demoRead s (Json.lengthE todos) (fun tLen =>
  demoRead s (Json.lengthE completedTodos) (fun ctLen =>
  let s := emit s (Effect.logged ("📝 Todos: " ++ Json.toDisplay tLen ++ " total ("
    ++ Json.toDisplay ctLen ++ " completed)"))
  (Except.ok (), emit s (Effect.logged "\n🎉 Demo completed successfully!"))))))))))

/-- Section 5 of the full demo try-block (lines 328 to 335 and the summary):
the todos calls, then the summary tail on the values threaded through. -/
def demoTodos (w : World) (userPosts comments users albums album1Photos : Json)
    (s : St) : Except String Unit × St :=
  demoSeq (getAllTodos w s) (fun todos s =>
  demoSeq (getCompletedTodos w s) (fun completedTodos s =>
  demoSummary userPosts comments users albums album1Photos todos completedTodos s))

/-- Section 4 of the full demo try-block (lines 318 to 326): albums and
photos, then section 5. -/
def demoAlbums (w : World) (userPosts comments users : Json) (s : St) :
    Except String Unit × St :=
  demoSeq (getAllAlbums w s) (fun albums s =>
  demoSeq (getAlbumPhotos w (Json.num 1) s) (fun album1Photos s =>
  demoRead s (samplePhotoE album1Photos) (fun sample =>
  let s := emit s (Effect.logged ("Sample photo: " ++ sample))
  let s := emit s (Effect.logged "\n")
  let s := emit s (Effect.logged "5️⃣ TODOS DEMO")
  let s := emit s (Effect.logged (dashes 15))
  demoTodos w userPosts comments users albums album1Photos s)))

/-- Section 3 of the full demo try-block (lines 307 to 316): users, then
section 4. -/
def demoUsers (w : World) (userPosts comments : Json) (s : St) :
    Except String Unit × St :=
  demoSeq (getAllUsers w s) (fun users s =>
  demoSeq (getUser w (Json.num 1) s) (fun _user1 s =>
  demoSeq (getUserAlbums w (Json.num 1) s) (fun _user1Albums s =>
  demoSeq (getUserTodos w (Json.num 1) s) (fun _user1Todos s =>
  let s := emit s (Effect.logged "\n")
  let s := emit s (Effect.logged "4️⃣ ALBUMS & PHOTOS DEMO")
  let s := emit s (Effect.logged (dashes 25))
  demoAlbums w userPosts comments users s))))

/-- Section 2 of the full demo try-block (lines 298 to 305): comments, then
section 3. -/
def demoComments (w : World) (userPosts : Json) (s : St) : Except String Unit × St :=
  demoSeq (getCommentsForPost w (Json.num 1) s) (fun comments s =>
  demoRead s (previewE comments) (fun preview =>
  let s := emit s (Effect.logged ("First comment: \"" ++ preview ++ "...\""))
  let s := emit s (Effect.logged "\n")
  let s := emit s (Effect.logged "3️⃣ USERS DEMO")
  let s := emit s (Effect.logged (dashes 20))
  demoUsers w userPosts comments s))

/-- Section 1 of the full demo try-block (lines 267 to 294): the posts
calls, then section 2. -/
def demoPosts (w : World) (s : St) : Except String Unit × St :=
  demoSeq (getPost w (Json.num 1) s) (fun _post1 s =>
  demoSeq (getPostsByUser w (Json.num 1) s) (fun userPosts s =>
  demoSeq (createPost w (Json.obj [("title", Json.str "My Test Post"),
      ("body", Json.str "This is a test post created via API"),
      ("userId", Json.num 1)]) s) (fun newPost s =>
  demoRead s (Json.fieldE newPost "id") (fun newPostId1 =>
  demoSeq (updatePost w newPostId1 (Json.obj [("title", Json.str "Updated Test Post"),
      ("body", Json.str "This post has been updated"),
      ("userId", Json.num 1)]) s) (fun _updatedPost s =>
  demoRead s (Json.fieldE newPost "id") (fun newPostId2 =>
  demoSeq (patchPost w newPostId2 (Json.obj [("title", Json.str "Patched Test Post")]) s)
    (fun _patchedPost s =>
  let s := emit s (Effect.logged "\n")
  let s := emit s (Effect.logged "2️⃣ COMMENTS DEMO")
  let s := emit s (Effect.logged (dashes 20))
  demoComments w userPosts s)))))))

/-- The try-block of runFullDemo (lines 266 to 350): the fixed sequence of
wrapper calls with progress logging, split here along the numbered sections
of the script; any raised error aborts the rest. -/
def runFullDemoBody (w : World) (s : St) : Except String Unit × St :=
  let s := emit s (Effect.logged "1️⃣ POSTS DEMO")
  let s := emit s (Effect.logged (dashes 20))
  demoPosts w s

/-- runFullDemo (lines 262 to 354): two header logs, then the try-block;
a raised error is caught at the top level, logged with `console.error`, and
not re-raised, so the call itself always succeeds. -/
def runFullDemo (w : World) (s : St) : Except String Unit × St :=
  let s := emit s (Effect.logged "🚀 Starting JSONPlaceholder API Demo")
  let s := emit s (Effect.logged "=====================================\n")
  match runFullDemoBody w s with
  | (Except.ok _, s) => (Except.ok (), s)
  | (Except.error e, s) =>
      (Except.ok (), emit s (Effect.errorLogged ("❌ Demo failed: " ++ e)))

/-- The try-block of quickTest (lines 362 to 383). -/
def quickTestBody (w : World) (s : St) : Except String Unit × St :=
  demoSeq (getPost w (Json.num 1) s) (fun _post s =>
  let s := emit s (Effect.logged "✅ GET request successful")
  demoSeq (createPost w (Json.obj [("title", Json.str "Quick Test Post"),
      ("body", Json.str "Testing POST request"),
      ("userId", Json.num 99)]) s) (fun _newPost s =>
  let s := emit s (Effect.logged "✅ POST request successful")
  demoSeq (getPostsByUser w (Json.num 1) s) (fun _userPosts s =>
  let s := emit s (Effect.logged "✅ Query parameters working")
  demoSeq (getCommentsForPost w (Json.num 1) s) (fun _comments s =>
  let s := emit s (Effect.logged "✅ Nested routes working")
  (Except.ok (), emit s (Effect.logged "\n🎉 All tests passed! API is working correctly."))))))


/-- quickTest (lines 359 to 388): one header log, then the try-block; a
raised error is caught at the top level, logged with `console.error`, and
not re-raised, so the call itself always succeeds. -/
def quickTest (w : World) (s : St) : Except String Unit × St :=
  let s := emit s (Effect.logged "⚡ Running Quick Test...\n")
  match quickTestBody w s with
  | (Except.ok _, s) => (Except.ok (), s)
  | (Except.error e, s) =>
      (Except.ok (), emit s (Effect.errorLogged ("❌ Quick test failed: " ++ e)))

/-- The facts every wrapper call (and `makeRequest` itself) guarantees:
the call issues exactly one fetch, at the current oracle index, at the given
URL with the given init object, and returns an error whenever that fetch
outcome makes `makeRequest` fail. -/
def WrapperSpec (w : World) (s : St) (url : String) (init : FetchInit)
    (out : Except String Json × St) : Prop :=
  out.2.calls = s.calls + 1 ∧
  fetches out.2.trace = fetches s.trace ++ [(url, init)] ∧
  (outcomeFails (w.oracle s.calls) = true → ∃ e, out.1 = Except.error e)

/-- Abort property of a demo computation with respect to the next n fetches:
whenever the oracle makes the k-th of them fail, the computation ends in a
raised error and its final trace holds at most k + 1 fetches beyond the
count fc recorded before it started. -/
def DemoAborts (w : World) (base fc n : Nat) (out : Except String Unit × St) : Prop :=
  ∀ k, k < n → outcomeFails (w.oracle (base + k)) = true →
    (∃ e t, out = (Except.error e, t)) ∧ fetchCount out.2.trace ≤ fc + k + 1

/-- The filter callback of getCompletedTodos as a boolean predicate: the
truthiness of the `completed` property when its read succeeds. -/
def completedPred (t : Json) : Bool :=
  match Json.fieldE t "completed" with
  | Except.ok c => Json.truthy c
  | Except.error _ => false

/-- Concrete todo fixtures for witness statements: one completed and one
uncompleted element. -/
def todoA : Json :=
  Json.obj [("id", Json.num 1), ("completed", Json.bool true)]

def todoB : Json :=
  Json.obj [("id", Json.num 2), ("completed", Json.bool false)]

def todosResp : HttpResponse :=
  { status := 200, bodyJson := some (Json.arr [todoA, todoB]) }

@[simp]
theorem fetches_append (a b : List Effect) : fetches (a ++ b) = fetches a ++ fetches b := by
  induction a with
  | nil => rfl
  | cons e t ih => cases e <;> simp [fetches, ih]

@[simp]
theorem fetches_nil : fetches [] = [] := rfl

@[simp]
theorem fetches_logged (m : String) (t : List Effect) :
    fetches (Effect.logged m :: t) = fetches t := rfl

@[simp]
theorem fetches_errorLogged (m : String) (t : List Effect) :
    fetches (Effect.errorLogged m :: t) = fetches t := rfl

@[simp]
theorem fetches_jsonParsed (t : List Effect) :
    fetches (Effect.jsonParsed :: t) = fetches t := rfl

@[simp]
theorem fetches_fetched (u : String) (i : FetchInit) (t : List Effect) :
    fetches (Effect.fetched u i :: t) = (u, i) :: fetches t := rfl

@[simp]
theorem countParses_append (a b : List Effect) :
    countParses (a ++ b) = countParses a + countParses b := by
  induction a with
  | nil => simp [countParses]
  | cons e t ih => cases e <;> (simp [countParses, ih]; try omega)

@[simp]
theorem emit_calls (s : St) (e : Effect) : (emit s e).calls = s.calls := rfl

@[simp]
theorem emit_trace (s : St) (e : Effect) : (emit s e).trace = s.trace ++ [e] := rfl

theorem makeRequest_spec (w : World) (u : String) (o : RequestOptions) (s : St) :
    WrapperSpec w s u (mkFetchInit o) (makeRequest w u o s) := by
  unfold WrapperSpec makeRequest
  cases h : w.oracle s.calls with
  | networkError msg =>
      refine ⟨rfl, by simp, fun _ => ⟨msg, rfl⟩⟩
  | got resp =>
      by_cases hok : respOk resp.status = false
      · simp only [hok, if_true]
        exact ⟨rfl, by simp, fun _ => ⟨_, rfl⟩⟩
      · have hok2 : respOk resp.status = true := by
          revert hok
          cases respOk resp.status <;> simp
        simp only [hok, if_false]
        by_cases h204 : resp.status = 204
        · simp only [h204, if_true]
          refine ⟨rfl, by simp, fun hf => ?_⟩
          exfalso
          rw [h204] at hok2
          simp [outcomeFails, h204, hok2] at hf
        · simp only [h204, if_false]
          cases hb : resp.bodyJson with
          | some j =>
              refine ⟨rfl, by simp, fun hf => ?_⟩
              exfalso
              simp [outcomeFails, hok2, hb] at hf
          | none =>
              exact ⟨rfl, by simp, fun _ => ⟨_, rfl⟩⟩

theorem no_ok_error {α β : Type} (v : α) :
    ¬ ∃ e : β, (Except.ok v : Except β α) = Except.error e := by
  rintro ⟨e, he⟩
  simp at he

theorem getAllPosts_spec (w : World) (s : St) :
    WrapperSpec w s (API_BASE_URL ++ "/posts") (mkFetchInit {})
      (getAllPosts w s) := by
  have h := makeRequest_spec w (API_BASE_URL ++ "/posts") {}
    (emit s (Effect.logged "📋 Fetching all posts..."))
  unfold getAllPosts
  dsimp only
  rcases hmr : makeRequest w (API_BASE_URL ++ "/posts") {}
      (emit s (Effect.logged "📋 Fetching all posts...")) with ⟨r, s2⟩
  rw [hmr] at h
  obtain ⟨hc, hfe, hfl⟩ := h
  cases r with
  | error e => exact ⟨hc, by simpa using hfe, fun _ => ⟨e, rfl⟩⟩
  | ok v =>
      dsimp only
      cases h1 : Json.lengthE v with
      | error e => exact ⟨hc, by simpa using hfe, fun hf => absurd (hfl hf) (no_ok_error v)⟩
      | ok x1 =>
          exact ⟨hc, by simpa using hfe, fun hf => absurd (hfl hf) (no_ok_error v)⟩

theorem getPost_spec (w : World) (id : Json) (s : St) :
    WrapperSpec w s (API_BASE_URL ++ "/posts/" ++ Json.toDisplay id) (mkFetchInit {})
      (getPost w id s) := by
  have h := makeRequest_spec w (API_BASE_URL ++ "/posts/" ++ Json.toDisplay id) {}
    (emit s (Effect.logged ("📄 Fetching post " ++ Json.toDisplay id ++ "...")))
  unfold getPost
  dsimp only
  rcases hmr : makeRequest w (API_BASE_URL ++ "/posts/" ++ Json.toDisplay id) {}
      (emit s (Effect.logged ("📄 Fetching post " ++ Json.toDisplay id ++ "..."))) with ⟨r, s2⟩
  rw [hmr] at h
  obtain ⟨hc, hfe, hfl⟩ := h
  cases r with
  | error e => exact ⟨hc, by simpa using hfe, fun _ => ⟨e, rfl⟩⟩
  | ok v =>
      dsimp only
      cases h1 : Json.fieldE v "title" with
      | error e => exact ⟨hc, by simpa using hfe, fun hf => absurd (hfl hf) (no_ok_error v)⟩
      | ok x1 =>
          exact ⟨hc, by simpa using hfe, fun hf => absurd (hfl hf) (no_ok_error v)⟩

theorem getPostsByUser_spec (w : World) (userId : Json) (s : St) :
    WrapperSpec w s (API_BASE_URL ++ "/posts?userId=" ++ Json.toDisplay userId) (mkFetchInit {})
      (getPostsByUser w userId s) := by
  have h := makeRequest_spec w (API_BASE_URL ++ "/posts?userId=" ++ Json.toDisplay userId) {}
    (emit s (Effect.logged ("👤 Fetching posts by user " ++ Json.toDisplay userId ++ "...")))
  unfold getPostsByUser
  dsimp only
  rcases hmr : makeRequest w (API_BASE_URL ++ "/posts?userId=" ++ Json.toDisplay userId) {}
      (emit s (Effect.logged ("👤 Fetching posts by user " ++ Json.toDisplay userId ++ "..."))) with ⟨r, s2⟩
  rw [hmr] at h
  obtain ⟨hc, hfe, hfl⟩ := h
  cases r with
  | error e => exact ⟨hc, by simpa using hfe, fun _ => ⟨e, rfl⟩⟩
  | ok v =>
      dsimp only
      cases h1 : Json.lengthE v with
      | error e => exact ⟨hc, by simpa using hfe, fun hf => absurd (hfl hf) (no_ok_error v)⟩
      | ok x1 =>
          exact ⟨hc, by simpa using hfe, fun hf => absurd (hfl hf) (no_ok_error v)⟩

theorem createPost_spec (w : World) (postData : Json) (s : St) :
    WrapperSpec w s (API_BASE_URL ++ "/posts") (mkFetchInit { method := some "POST", body := stringify postData })
      (createPost w postData s) := by
  have h := makeRequest_spec w (API_BASE_URL ++ "/posts") { method := some "POST", body := stringify postData }
    (emit s (Effect.logged "📝 Creating new post..."))
  unfold createPost
  dsimp only
  rcases hmr : makeRequest w (API_BASE_URL ++ "/posts") { method := some "POST", body := stringify postData }
      (emit s (Effect.logged "📝 Creating new post...")) with ⟨r, s2⟩
  rw [hmr] at h
  obtain ⟨hc, hfe, hfl⟩ := h
  cases r with
  | error e => exact ⟨hc, by simpa using hfe, fun _ => ⟨e, rfl⟩⟩
  | ok v =>
      dsimp only
      cases h1 : Json.fieldE v "id" with
      | error e => exact ⟨hc, by simpa using hfe, fun hf => absurd (hfl hf) (no_ok_error v)⟩
      | ok x1 =>
          exact ⟨hc, by simpa using hfe, fun hf => absurd (hfl hf) (no_ok_error v)⟩

theorem updatePost_spec (w : World) (id : Json) (postData : Json) (s : St) :
    WrapperSpec w s (API_BASE_URL ++ "/posts/" ++ Json.toDisplay id) (mkFetchInit { method := some "PUT", body := stringify (Json.obj (objSpread [("id", id)] postData)) })
      (updatePost w id postData s) := by
  have h := makeRequest_spec w (API_BASE_URL ++ "/posts/" ++ Json.toDisplay id) { method := some "PUT", body := stringify (Json.obj (objSpread [("id", id)] postData)) }
    (emit s (Effect.logged ("📝 Updating post " ++ Json.toDisplay id ++ "...")))
  unfold updatePost
  dsimp only
  rcases hmr : makeRequest w (API_BASE_URL ++ "/posts/" ++ Json.toDisplay id) { method := some "PUT", body := stringify (Json.obj (objSpread [("id", id)] postData)) }
      (emit s (Effect.logged ("📝 Updating post " ++ Json.toDisplay id ++ "..."))) with ⟨r, s2⟩
  rw [hmr] at h
  obtain ⟨hc, hfe, hfl⟩ := h
  cases r with
  | error e => exact ⟨hc, by simpa using hfe, fun _ => ⟨e, rfl⟩⟩
  | ok v =>
      exact ⟨hc, by simpa using hfe, fun hf => absurd (hfl hf) (no_ok_error v)⟩

theorem patchPost_spec (w : World) (id : Json) (patchData : Json) (s : St) :
    WrapperSpec w s (API_BASE_URL ++ "/posts/" ++ Json.toDisplay id) (mkFetchInit { method := some "PATCH", body := stringify patchData })
      (patchPost w id patchData s) := by
  have h := makeRequest_spec w (API_BASE_URL ++ "/posts/" ++ Json.toDisplay id) { method := some "PATCH", body := stringify patchData }
    (emit s (Effect.logged ("✏️ Patching post " ++ Json.toDisplay id ++ "...")))
  unfold patchPost
  dsimp only
  rcases hmr : makeRequest w (API_BASE_URL ++ "/posts/" ++ Json.toDisplay id) { method := some "PATCH", body := stringify patchData }
      (emit s (Effect.logged ("✏️ Patching post " ++ Json.toDisplay id ++ "..."))) with ⟨r, s2⟩
  rw [hmr] at h
  obtain ⟨hc, hfe, hfl⟩ := h
  cases r with
  | error e => exact ⟨hc, by simpa using hfe, fun _ => ⟨e, rfl⟩⟩
  | ok v =>
      exact ⟨hc, by simpa using hfe, fun hf => absurd (hfl hf) (no_ok_error v)⟩

theorem deletePost_spec (w : World) (id : Json) (s : St) :
    WrapperSpec w s (API_BASE_URL ++ "/posts/" ++ Json.toDisplay id) (mkFetchInit { method := some "DELETE" })
      (deletePost w id s) := by
  have h := makeRequest_spec w (API_BASE_URL ++ "/posts/" ++ Json.toDisplay id) { method := some "DELETE" }
    (emit s (Effect.logged ("🗑️ Deleting post " ++ Json.toDisplay id ++ "...")))
  unfold deletePost
  dsimp only
  rcases hmr : makeRequest w (API_BASE_URL ++ "/posts/" ++ Json.toDisplay id) { method := some "DELETE" }
      (emit s (Effect.logged ("🗑️ Deleting post " ++ Json.toDisplay id ++ "..."))) with ⟨r, s2⟩
  rw [hmr] at h
  obtain ⟨hc, hfe, hfl⟩ := h
  cases r with
  | error e => exact ⟨hc, by simpa using hfe, fun _ => ⟨e, rfl⟩⟩
  | ok v =>
      exact ⟨hc, by simpa using hfe, fun hf => absurd (hfl hf) (no_ok_error v)⟩

theorem getAllComments_spec (w : World) (s : St) :
    WrapperSpec w s (API_BASE_URL ++ "/comments") (mkFetchInit {})
      (getAllComments w s) := by
  have h := makeRequest_spec w (API_BASE_URL ++ "/comments") {}
    (emit s (Effect.logged "💬 Fetching all comments..."))
  unfold getAllComments
  dsimp only
  rcases hmr : makeRequest w (API_BASE_URL ++ "/comments") {}
      (emit s (Effect.logged "💬 Fetching all comments...")) with ⟨r, s2⟩
  rw [hmr] at h
  obtain ⟨hc, hfe, hfl⟩ := h
  cases r with
  | error e => exact ⟨hc, by simpa using hfe, fun _ => ⟨e, rfl⟩⟩
  | ok v =>
      dsimp only
      cases h1 : Json.lengthE v with
      | error e => exact ⟨hc, by simpa using hfe, fun hf => absurd (hfl hf) (no_ok_error v)⟩
      | ok x1 =>
          exact ⟨hc, by simpa using hfe, fun hf => absurd (hfl hf) (no_ok_error v)⟩

theorem getCommentsForPost_spec (w : World) (postId : Json) (s : St) :
    WrapperSpec w s (API_BASE_URL ++ "/posts/" ++ Json.toDisplay postId ++ "/comments") (mkFetchInit {})
      (getCommentsForPost w postId s) := by
  have h := makeRequest_spec w (API_BASE_URL ++ "/posts/" ++ Json.toDisplay postId ++ "/comments") {}
    (emit s (Effect.logged ("💬 Fetching comments for post "
    ++ Json.toDisplay postId ++ "...")))
  unfold getCommentsForPost
  dsimp only
  rcases hmr : makeRequest w (API_BASE_URL ++ "/posts/" ++ Json.toDisplay postId ++ "/comments") {}
      (emit s (Effect.logged ("💬 Fetching comments for post "
    ++ Json.toDisplay postId ++ "..."))) with ⟨r, s2⟩
  rw [hmr] at h
  obtain ⟨hc, hfe, hfl⟩ := h
  cases r with
  | error e => exact ⟨hc, by simpa using hfe, fun _ => ⟨e, rfl⟩⟩
  | ok v =>
      dsimp only
      cases h1 : Json.lengthE v with
      | error e => exact ⟨hc, by simpa using hfe, fun hf => absurd (hfl hf) (no_ok_error v)⟩
      | ok x1 =>
          exact ⟨hc, by simpa using hfe, fun hf => absurd (hfl hf) (no_ok_error v)⟩

theorem getAllUsers_spec (w : World) (s : St) :
    WrapperSpec w s (API_BASE_URL ++ "/users") (mkFetchInit {})
      (getAllUsers w s) := by
  have h := makeRequest_spec w (API_BASE_URL ++ "/users") {}
    (emit s (Effect.logged "👥 Fetching all users..."))
  unfold getAllUsers
  dsimp only
  rcases hmr : makeRequest w (API_BASE_URL ++ "/users") {}
      (emit s (Effect.logged "👥 Fetching all users...")) with ⟨r, s2⟩
  rw [hmr] at h
  obtain ⟨hc, hfe, hfl⟩ := h
  cases r with
  | error e => exact ⟨hc, by simpa using hfe, fun _ => ⟨e, rfl⟩⟩
  | ok v =>
      dsimp only
      cases h1 : Json.lengthE v with
      | error e => exact ⟨hc, by simpa using hfe, fun hf => absurd (hfl hf) (no_ok_error v)⟩
      | ok x1 =>
          exact ⟨hc, by simpa using hfe, fun hf => absurd (hfl hf) (no_ok_error v)⟩

theorem getUser_spec (w : World) (id : Json) (s : St) :
    WrapperSpec w s (API_BASE_URL ++ "/users/" ++ Json.toDisplay id) (mkFetchInit {})
      (getUser w id s) := by
  have h := makeRequest_spec w (API_BASE_URL ++ "/users/" ++ Json.toDisplay id) {}
    (emit s (Effect.logged ("👤 Fetching user " ++ Json.toDisplay id ++ "...")))
  unfold getUser
  dsimp only
  rcases hmr : makeRequest w (API_BASE_URL ++ "/users/" ++ Json.toDisplay id) {}
      (emit s (Effect.logged ("👤 Fetching user " ++ Json.toDisplay id ++ "..."))) with ⟨r, s2⟩
  rw [hmr] at h
  obtain ⟨hc, hfe, hfl⟩ := h
  cases r with
  | error e => exact ⟨hc, by simpa using hfe, fun _ => ⟨e, rfl⟩⟩
  | ok v =>
      dsimp only
      cases h1 : Json.fieldE v "name" with
      | error e => exact ⟨hc, by simpa using hfe, fun hf => absurd (hfl hf) (no_ok_error v)⟩
      | ok x1 =>
          dsimp only
          cases h2 : Json.fieldE v "email" with
          | error e => exact ⟨hc, by simpa using hfe, fun hf => absurd (hfl hf) (no_ok_error v)⟩
          | ok x2 =>
              exact ⟨hc, by simpa using hfe, fun hf => absurd (hfl hf) (no_ok_error v)⟩

theorem getUserAlbums_spec (w : World) (userId : Json) (s : St) :
    WrapperSpec w s (API_BASE_URL ++ "/users/" ++ Json.toDisplay userId ++ "/albums") (mkFetchInit {})
      (getUserAlbums w userId s) := by
  have h := makeRequest_spec w (API_BASE_URL ++ "/users/" ++ Json.toDisplay userId ++ "/albums") {}
    (emit s (Effect.logged ("📸 Fetching albums for user "
    ++ Json.toDisplay userId ++ "...")))
  unfold getUserAlbums
  dsimp only
  rcases hmr : makeRequest w (API_BASE_URL ++ "/users/" ++ Json.toDisplay userId ++ "/albums") {}
      (emit s (Effect.logged ("📸 Fetching albums for user "
    ++ Json.toDisplay userId ++ "..."))) with ⟨r, s2⟩
  rw [hmr] at h
  obtain ⟨hc, hfe, hfl⟩ := h
  cases r with
  | error e => exact ⟨hc, by simpa using hfe, fun _ => ⟨e, rfl⟩⟩
  | ok v =>
      dsimp only
      cases h1 : Json.lengthE v with
      | error e => exact ⟨hc, by simpa using hfe, fun hf => absurd (hfl hf) (no_ok_error v)⟩
      | ok x1 =>
          exact ⟨hc, by simpa using hfe, fun hf => absurd (hfl hf) (no_ok_error v)⟩

theorem getUserTodos_spec (w : World) (userId : Json) (s : St) :
    WrapperSpec w s (API_BASE_URL ++ "/users/" ++ Json.toDisplay userId ++ "/todos") (mkFetchInit {})
      (getUserTodos w userId s) := by
  have h := makeRequest_spec w (API_BASE_URL ++ "/users/" ++ Json.toDisplay userId ++ "/todos") {}
    (emit s (Effect.logged ("✅ Fetching todos for user "
    ++ Json.toDisplay userId ++ "...")))
  unfold getUserTodos
  dsimp only
  rcases hmr : makeRequest w (API_BASE_URL ++ "/users/" ++ Json.toDisplay userId ++ "/todos") {}
      (emit s (Effect.logged ("✅ Fetching todos for user "
    ++ Json.toDisplay userId ++ "..."))) with ⟨r, s2⟩
  rw [hmr] at h
  obtain ⟨hc, hfe, hfl⟩ := h
  cases r with
  | error e => exact ⟨hc, by simpa using hfe, fun _ => ⟨e, rfl⟩⟩
  | ok v =>
      dsimp only
      cases h1 : Json.lengthE v with
      | error e => exact ⟨hc, by simpa using hfe, fun hf => absurd (hfl hf) (no_ok_error v)⟩
      | ok x1 =>
          exact ⟨hc, by simpa using hfe, fun hf => absurd (hfl hf) (no_ok_error v)⟩

theorem getAllAlbums_spec (w : World) (s : St) :
    WrapperSpec w s (API_BASE_URL ++ "/albums") (mkFetchInit {})
      (getAllAlbums w s) := by
  have h := makeRequest_spec w (API_BASE_URL ++ "/albums") {}
    (emit s (Effect.logged "📚 Fetching all albums..."))
  unfold getAllAlbums
  dsimp only
  rcases hmr : makeRequest w (API_BASE_URL ++ "/albums") {}
      (emit s (Effect.logged "📚 Fetching all albums...")) with ⟨r, s2⟩
  rw [hmr] at h
  obtain ⟨hc, hfe, hfl⟩ := h
  cases r with
  | error e => exact ⟨hc, by simpa using hfe, fun _ => ⟨e, rfl⟩⟩
  | ok v =>
      dsimp only
      cases h1 : Json.lengthE v with
      | error e => exact ⟨hc, by simpa using hfe, fun hf => absurd (hfl hf) (no_ok_error v)⟩
      | ok x1 =>
          exact ⟨hc, by simpa using hfe, fun hf => absurd (hfl hf) (no_ok_error v)⟩

theorem getAlbumPhotos_spec (w : World) (albumId : Json) (s : St) :
    WrapperSpec w s (API_BASE_URL ++ "/albums/" ++ Json.toDisplay albumId ++ "/photos") (mkFetchInit {})
      (getAlbumPhotos w albumId s) := by
  have h := makeRequest_spec w (API_BASE_URL ++ "/albums/" ++ Json.toDisplay albumId ++ "/photos") {}
    (emit s (Effect.logged ("📸 Fetching photos from album "
    ++ Json.toDisplay albumId ++ "...")))
  unfold getAlbumPhotos
  dsimp only
  rcases hmr : makeRequest w (API_BASE_URL ++ "/albums/" ++ Json.toDisplay albumId ++ "/photos") {}
      (emit s (Effect.logged ("📸 Fetching photos from album "
    ++ Json.toDisplay albumId ++ "..."))) with ⟨r, s2⟩
  rw [hmr] at h
  obtain ⟨hc, hfe, hfl⟩ := h
  cases r with
  | error e => exact ⟨hc, by simpa using hfe, fun _ => ⟨e, rfl⟩⟩
  | ok v =>
      dsimp only
      cases h1 : Json.lengthE v with
      | error e => exact ⟨hc, by simpa using hfe, fun hf => absurd (hfl hf) (no_ok_error v)⟩
      | ok x1 =>
          exact ⟨hc, by simpa using hfe, fun hf => absurd (hfl hf) (no_ok_error v)⟩

theorem getAllPhotos_spec (w : World) (s : St) :
    WrapperSpec w s (API_BASE_URL ++ "/photos") (mkFetchInit {})
      (getAllPhotos w s) := by
  have h := makeRequest_spec w (API_BASE_URL ++ "/photos") {}
    (emit s (Effect.logged "🖼️ Fetching all photos..."))
  unfold getAllPhotos
  dsimp only
  rcases hmr : makeRequest w (API_BASE_URL ++ "/photos") {}
      (emit s (Effect.logged "🖼️ Fetching all photos...")) with ⟨r, s2⟩
  rw [hmr] at h
  obtain ⟨hc, hfe, hfl⟩ := h
  cases r with
  | error e => exact ⟨hc, by simpa using hfe, fun _ => ⟨e, rfl⟩⟩
  | ok v =>
      dsimp only
      cases h1 : Json.lengthE v with
      | error e => exact ⟨hc, by simpa using hfe, fun hf => absurd (hfl hf) (no_ok_error v)⟩
      | ok x1 =>
          exact ⟨hc, by simpa using hfe, fun hf => absurd (hfl hf) (no_ok_error v)⟩

theorem getAllTodos_spec (w : World) (s : St) :
    WrapperSpec w s (API_BASE_URL ++ "/todos") (mkFetchInit {})
      (getAllTodos w s) := by
  have h := makeRequest_spec w (API_BASE_URL ++ "/todos") {}
    (emit s (Effect.logged "📝 Fetching all todos..."))
  unfold getAllTodos
  dsimp only
  rcases hmr : makeRequest w (API_BASE_URL ++ "/todos") {}
      (emit s (Effect.logged "📝 Fetching all todos...")) with ⟨r, s2⟩
  rw [hmr] at h
  obtain ⟨hc, hfe, hfl⟩ := h
  cases r with
  | error e => exact ⟨hc, by simpa using hfe, fun _ => ⟨e, rfl⟩⟩
  | ok v =>
      dsimp only
      cases h1 : Json.lengthE v with
      | error e => exact ⟨hc, by simpa using hfe, fun hf => absurd (hfl hf) (no_ok_error v)⟩
      | ok x1 =>
          exact ⟨hc, by simpa using hfe, fun hf => absurd (hfl hf) (no_ok_error v)⟩

theorem getCompletedTodos_spec (w : World) (s : St) :
    WrapperSpec w s (API_BASE_URL ++ "/todos") (mkFetchInit {})
      (getCompletedTodos w s) := by
  have h := makeRequest_spec w (API_BASE_URL ++ "/todos") {}
    (emit s (Effect.logged "✅ Fetching completed todos..."))
  unfold getCompletedTodos
  dsimp only
  rcases hmr : makeRequest w (API_BASE_URL ++ "/todos") {}
      (emit s (Effect.logged "✅ Fetching completed todos...")) with ⟨r, s2⟩
  rw [hmr] at h
  obtain ⟨hc, hfe, hfl⟩ := h
  cases r with
  | error e => exact ⟨hc, by simpa using hfe, fun _ => ⟨e, rfl⟩⟩
  | ok v =>
      dsimp only
      cases h1 : jsFilterCompleted v with
      | error e => exact ⟨hc, by simpa using hfe, fun hf => absurd (hfl hf) (no_ok_error v)⟩
      | ok x1 =>
          dsimp only
          cases h2 : Json.lengthE x1 with
          | error e => exact ⟨hc, by simpa using hfe, fun hf => absurd (hfl hf) (no_ok_error v)⟩
          | ok x2 =>
              exact ⟨hc, by simpa using hfe, fun hf => absurd (hfl hf) (no_ok_error v)⟩

/-- Claim C1, counterexample: the claim states that for every options object
the sent headers merge the default `Content-Type: application/json` with the
caller headers, so that a caller headers object without a Content-Type key
still yields a request carrying the default.  At the concrete options object
whose headers are `[(X-Requested-With, demo)]` the request is sent with
exactly those headers and no Content-Type at all, because the trailing
spread of `options` in `makeRequest` overwrites the merged headers map. -/
theorem C1_counterexample :
    fetches (makeRequest (constWorld (FetchOutcome.networkError "offline"))
        "https://jsonplaceholder.typicode.com/posts"
        { headers := some [("X-Requested-With", "demo")] } st0).2.trace
      = [("https://jsonplaceholder.typicode.com/posts",
          { method := none, headers := [("X-Requested-With", "demo")], body := none })] ∧
    ((mkFetchInit { headers := some [("X-Requested-With", "demo")] }).headers.any
        (fun p => p.1 == "Content-Type")) = false := by
  exact ⟨rfl, rfl⟩

/-- Claim C1, amended: every call of `makeRequest` sends exactly one request,
whose headers are the caller-supplied headers object unchanged whenever the
options carry a `headers` key (the default Content-Type is dropped, not
merged), and exactly the default `Content-Type: application/json` map when
the options carry no `headers` key. -/
theorem C1_amended_headers (w : World) (u : String) (o : RequestOptions) (s : St) :
    fetches (makeRequest w u o s).2.trace = fetches s.trace ++ [(u, mkFetchInit o)] ∧
    (mkFetchInit o).headers = o.headers.getD [("Content-Type", "application/json")] := by
  refine ⟨(makeRequest_spec w u o s).2.1, ?_⟩
  rcases o with ⟨m, hdr, b⟩
  cases hdr with
  | none => rfl
  | some hs => rfl

/-- Claim C2: a response with status 204 makes `makeRequest` return the
success marker object and record no JSON-parse attempt. -/
theorem C2_status204 (w : World) (u : String) (o : RequestOptions) (s : St)
    (resp : HttpResponse) (h : w.oracle s.calls = FetchOutcome.got resp)
    (h204 : resp.status = 204) :
    (makeRequest w u o s).1 = Except.ok (Json.obj [("success", Json.bool true)]) ∧
    countParses (makeRequest w u o s).2.trace = countParses s.trace := by
  unfold makeRequest
  rw [h]
  simp [h204, countParses, show respOk 204 = true from rfl]

/-- Witness for C2 at a concrete 204 response (whose body would not even
parse, showing no parse is attempted). -/
theorem C2_status204_witness :
    (makeRequest (constWorld (FetchOutcome.got { status := 204, bodyJson := none }))
        "https://jsonplaceholder.typicode.com/posts/1" { method := some "DELETE" } st0).1
      = Except.ok (Json.obj [("success", Json.bool true)]) ∧
    countParses (makeRequest (constWorld (FetchOutcome.got { status := 204, bodyJson := none }))
        "https://jsonplaceholder.typicode.com/posts/1" { method := some "DELETE" } st0).2.trace
      = countParses st0.trace :=
  C2_status204 (constWorld (FetchOutcome.got { status := 204, bodyJson := none }))
    "https://jsonplaceholder.typicode.com/posts/1" { method := some "DELETE" } st0
    { status := 204, bodyJson := none } rfl rfl

/-- Claim C3: a response whose status is not ok (outside 200 to 299) makes
`makeRequest` produce the error naming that status code instead of a return
value, and the trace shows the failure logged to the error channel as the
last effect of the call, before the error propagates to the caller. -/
theorem C3_httpError (w : World) (u : String) (o : RequestOptions) (s : St)
    (resp : HttpResponse) (h : w.oracle s.calls = FetchOutcome.got resp)
    (hbad : respOk resp.status = false) :
    (makeRequest w u o s).1 = Except.error ("HTTP error! status: " ++ toString resp.status) ∧
    (makeRequest w u o s).2.trace =
      s.trace ++ [Effect.fetched u (mkFetchInit o),
        Effect.errorLogged ("API Request failed: HTTP error! status: " ++ toString resp.status)] := by
  unfold makeRequest
  rw [h]
  simp [hbad, emit]

/-- Witness for C3 at a concrete 404 response. -/
theorem C3_httpError_witness :
    (makeRequest (constWorld (FetchOutcome.got { status := 404, bodyJson := none }))
        "https://jsonplaceholder.typicode.com/posts/1" {} st0).1
      = Except.error ("HTTP error! status: " ++ toString (404 : Nat)) ∧
    (makeRequest (constWorld (FetchOutcome.got { status := 404, bodyJson := none }))
        "https://jsonplaceholder.typicode.com/posts/1" {} st0).2.trace
      = st0.trace ++ [Effect.fetched "https://jsonplaceholder.typicode.com/posts/1" (mkFetchInit {}),
          Effect.errorLogged ("API Request failed: HTTP error! status: " ++ toString (404 : Nat))] :=
  C3_httpError (constWorld (FetchOutcome.got { status := 404, bodyJson := none }))
    "https://jsonplaceholder.typicode.com/posts/1" {} st0
    { status := 404, bodyJson := none } rfl rfl
/-- Claim C6: the URL each wrapper passes to `makeRequest` (together with
its method and body options) is exactly the one of the method and path table
of the specification: `\x7bbase\x7d/\x7bresource\x7d` with an optional id
path segment, nested segment or query parameter; in particular
`getPostsByUser` issues a GET (the default method of an init object without
a `method` key) of `/posts?userId=...`, and `createPost` issues a POST of
`/posts` whose body is the JSON serialization of its argument. -/
theorem C6_wrapperUrls (w : World) (s : St) (id : Int) (pd : Json) :
    effectiveMethod (mkFetchInit {}) = "GET" ∧
    fetches (getAllPosts w s).2.trace = fetches s.trace
      ++ [(API_BASE_URL ++ "/posts", mkFetchInit {})] ∧
    fetches (getPost w (Json.num id) s).2.trace = fetches s.trace
      ++ [(API_BASE_URL ++ "/posts/" ++ toString id, mkFetchInit {})] ∧
    fetches (getPostsByUser w (Json.num id) s).2.trace = fetches s.trace
      ++ [(API_BASE_URL ++ "/posts?userId=" ++ toString id, mkFetchInit {})] ∧
    fetches (createPost w pd s).2.trace = fetches s.trace
      ++ [(API_BASE_URL ++ "/posts", mkFetchInit { method := some "POST", body := stringify pd })] ∧
    fetches (updatePost w (Json.num id) pd s).2.trace = fetches s.trace
      ++ [(API_BASE_URL ++ "/posts/" ++ toString id, mkFetchInit { method := some "PUT", body := stringify (Json.obj (objSpread [("id", Json.num id)] pd)) })] ∧
    fetches (patchPost w (Json.num id) pd s).2.trace = fetches s.trace
      ++ [(API_BASE_URL ++ "/posts/" ++ toString id, mkFetchInit { method := some "PATCH", body := stringify pd })] ∧
    fetches (deletePost w (Json.num id) s).2.trace = fetches s.trace
      ++ [(API_BASE_URL ++ "/posts/" ++ toString id, mkFetchInit { method := some "DELETE" })] ∧
    fetches (getAllComments w s).2.trace = fetches s.trace
      ++ [(API_BASE_URL ++ "/comments", mkFetchInit {})] ∧
    fetches (getCommentsForPost w (Json.num id) s).2.trace = fetches s.trace
      ++ [(API_BASE_URL ++ "/posts/" ++ toString id ++ "/comments", mkFetchInit {})] ∧
    fetches (getAllUsers w s).2.trace = fetches s.trace
      ++ [(API_BASE_URL ++ "/users", mkFetchInit {})] ∧
    fetches (getUser w (Json.num id) s).2.trace = fetches s.trace
      ++ [(API_BASE_URL ++ "/users/" ++ toString id, mkFetchInit {})] ∧
    fetches (getUserAlbums w (Json.num id) s).2.trace = fetches s.trace
      ++ [(API_BASE_URL ++ "/users/" ++ toString id ++ "/albums", mkFetchInit {})] ∧
    fetches (getUserTodos w (Json.num id) s).2.trace = fetches s.trace
      ++ [(API_BASE_URL ++ "/users/" ++ toString id ++ "/todos", mkFetchInit {})] ∧
    fetches (getAllAlbums w s).2.trace = fetches s.trace
      ++ [(API_BASE_URL ++ "/albums", mkFetchInit {})] ∧
    fetches (getAlbumPhotos w (Json.num id) s).2.trace = fetches s.trace
      ++ [(API_BASE_URL ++ "/albums/" ++ toString id ++ "/photos", mkFetchInit {})] ∧
    fetches (getAllPhotos w s).2.trace = fetches s.trace
      ++ [(API_BASE_URL ++ "/photos", mkFetchInit {})] ∧
    fetches (getAllTodos w s).2.trace = fetches s.trace
      ++ [(API_BASE_URL ++ "/todos", mkFetchInit {})] ∧
    fetches (getCompletedTodos w s).2.trace = fetches s.trace
      ++ [(API_BASE_URL ++ "/todos", mkFetchInit {})] := by
  refine ⟨rfl, ?_, ?_, ?_, ?_, ?_, ?_, ?_, ?_, ?_, ?_, ?_, ?_, ?_, ?_, ?_, ?_, ?_, ?_⟩
  · exact (getAllPosts_spec w s).2.1
  · simpa [Json.toDisplay] using (getPost_spec w (Json.num id) s).2.1
  · simpa [Json.toDisplay] using (getPostsByUser_spec w (Json.num id) s).2.1
  · exact (createPost_spec w pd s).2.1
  · simpa [Json.toDisplay] using (updatePost_spec w (Json.num id) pd s).2.1
  · simpa [Json.toDisplay] using (patchPost_spec w (Json.num id) pd s).2.1
  · simpa [Json.toDisplay] using (deletePost_spec w (Json.num id) s).2.1
  · exact (getAllComments_spec w s).2.1
  · simpa [Json.toDisplay] using (getCommentsForPost_spec w (Json.num id) s).2.1
  · exact (getAllUsers_spec w s).2.1
  · simpa [Json.toDisplay] using (getUser_spec w (Json.num id) s).2.1
  · simpa [Json.toDisplay] using (getUserAlbums_spec w (Json.num id) s).2.1
  · simpa [Json.toDisplay] using (getUserTodos_spec w (Json.num id) s).2.1
  · exact (getAllAlbums_spec w s).2.1
  · simpa [Json.toDisplay] using (getAlbumPhotos_spec w (Json.num id) s).2.1
  · exact (getAllPhotos_spec w s).2.1
  · exact (getAllTodos_spec w s).2.1
  · exact (getCompletedTodos_spec w s).2.1

/-- Claim C10: no wrapper ever places a `headers` key in the options object
it hands to `makeRequest` (only `method` and `body`, or nothing), so every
request a wrapper actually sends carries exactly the default
`Content-Type: application/json` headers map. -/
theorem C10_wrapperHeaders (w : World) (id : Json) (pd : Json) :
    (fetches (getAllPosts w st0).2.trace).map (fun p => p.2.headers)
      = [[("Content-Type", "application/json")]] ∧
    (fetches (getPost w id st0).2.trace).map (fun p => p.2.headers)
      = [[("Content-Type", "application/json")]] ∧
    (fetches (getPostsByUser w id st0).2.trace).map (fun p => p.2.headers)
      = [[("Content-Type", "application/json")]] ∧
    (fetches (createPost w pd st0).2.trace).map (fun p => p.2.headers)
      = [[("Content-Type", "application/json")]] ∧
    (fetches (updatePost w id pd st0).2.trace).map (fun p => p.2.headers)
      = [[("Content-Type", "application/json")]] ∧
    (fetches (patchPost w id pd st0).2.trace).map (fun p => p.2.headers)
      = [[("Content-Type", "application/json")]] ∧
    (fetches (deletePost w id st0).2.trace).map (fun p => p.2.headers)
      = [[("Content-Type", "application/json")]] ∧
    (fetches (getAllComments w st0).2.trace).map (fun p => p.2.headers)
      = [[("Content-Type", "application/json")]] ∧
    (fetches (getCommentsForPost w id st0).2.trace).map (fun p => p.2.headers)
      = [[("Content-Type", "application/json")]] ∧
    (fetches (getAllUsers w st0).2.trace).map (fun p => p.2.headers)
      = [[("Content-Type", "application/json")]] ∧
    (fetches (getUser w id st0).2.trace).map (fun p => p.2.headers)
      = [[("Content-Type", "application/json")]] ∧
    (fetches (getUserAlbums w id st0).2.trace).map (fun p => p.2.headers)
      = [[("Content-Type", "application/json")]] ∧
    (fetches (getUserTodos w id st0).2.trace).map (fun p => p.2.headers)
      = [[("Content-Type", "application/json")]] ∧
    (fetches (getAllAlbums w st0).2.trace).map (fun p => p.2.headers)
      = [[("Content-Type", "application/json")]] ∧
    (fetches (getAlbumPhotos w id st0).2.trace).map (fun p => p.2.headers)
      = [[("Content-Type", "application/json")]] ∧
    (fetches (getAllPhotos w st0).2.trace).map (fun p => p.2.headers)
      = [[("Content-Type", "application/json")]] ∧
    (fetches (getAllTodos w st0).2.trace).map (fun p => p.2.headers)
      = [[("Content-Type", "application/json")]] ∧
    (fetches (getCompletedTodos w st0).2.trace).map (fun p => p.2.headers)
      = [[("Content-Type", "application/json")]] := by
  refine ⟨?_, ?_, ?_, ?_, ?_, ?_, ?_, ?_, ?_, ?_, ?_, ?_, ?_, ?_, ?_, ?_, ?_, ?_⟩
  · rw [(getAllPosts_spec w st0).2.1]
    rfl
  · rw [(getPost_spec w id st0).2.1]
    rfl
  · rw [(getPostsByUser_spec w id st0).2.1]
    rfl
  · rw [(createPost_spec w pd st0).2.1]
    rfl
  · rw [(updatePost_spec w id pd st0).2.1]
    rfl
  · rw [(patchPost_spec w id pd st0).2.1]
    rfl
  · rw [(deletePost_spec w id st0).2.1]
    rfl
  · rw [(getAllComments_spec w st0).2.1]
    rfl
  · rw [(getCommentsForPost_spec w id st0).2.1]
    rfl
  · rw [(getAllUsers_spec w st0).2.1]
    rfl
  · rw [(getUser_spec w id st0).2.1]
    rfl
  · rw [(getUserAlbums_spec w id st0).2.1]
    rfl
  · rw [(getUserTodos_spec w id st0).2.1]
    rfl
  · rw [(getAllAlbums_spec w st0).2.1]
    rfl
  · rw [(getAlbumPhotos_spec w id st0).2.1]
    rfl
  · rw [(getAllPhotos_spec w st0).2.1]
    rfl
  · rw [(getAllTodos_spec w st0).2.1]
    rfl
  · rw [(getCompletedTodos_spec w st0).2.1]
    rfl

/-- Claim C5: the concrete call of updatePost with id 5 and the postData
object holding title t, body b and userId 1 records exactly one fetch: a PUT to `/posts/5` whose serialized JSON body is
the object with fields id 5, title t, body b, userId 1 (the id taken from
the path parameter, serialized first). -/
theorem C5_updatePost5 (w : World) (s : St) :
    fetches (updatePost w (Json.num 5)
        (Json.obj [("title", Json.str "t"), ("body", Json.str "b"),
          ("userId", Json.num 1)]) s).2.trace
      = fetches s.trace ++
        [(API_BASE_URL ++ "/posts/5",
          { method := some "PUT", headers := [("Content-Type", "application/json")],
            body := some "\x7b\"id\":5,\"title\":\"t\",\"body\":\"b\",\"userId\":1\x7d" })] := by
  exact (updatePost_spec w (Json.num 5)
    (Json.obj [("title", Json.str "t"), ("body", Json.str "b"),
      ("userId", Json.num 1)]) s).2.1

theorem lookupField_setKey_self {α : Type} (fs : List (String × α)) (k : String) (v : α) :
    lookupField (setKey fs k v) k = some v := by
  induction fs with
  | nil => simp [setKey, lookupField]
  | cons p rest ih =>
      rcases p with ⟨k1, v1⟩
      by_cases hk : k1 = k
      · subst hk
        simp [setKey, lookupField]
      · simp [setKey, hk, lookupField, List.find?_cons, hk]
        simpa [lookupField] using ih

theorem lookupField_setKey_other {α : Type} (fs : List (String × α)) (k1 : String) (v1 : α)
    (k : String) (h : k1 ≠ k) :
    lookupField (setKey fs k1 v1) k = lookupField fs k := by
  induction fs with
  | nil => simp [setKey, lookupField, h]
  | cons p rest ih =>
      rcases p with ⟨k2, v2⟩
      by_cases hk : k2 = k1
      · subst hk
        simp [setKey, lookupField, h]
      · simp only [setKey, hk, if_false]
        by_cases hk2 : k2 = k
        · subst hk2
          simp [lookupField]
        · simp [lookupField, hk2]
          simpa [lookupField] using ih

theorem lookupField_spreadInto_not_mem {α : Type} (base ext : List (String × α)) (k : String)
    (h : k ∉ ext.map Prod.fst) :
    lookupField (spreadInto base ext) k = lookupField base k := by
  induction ext generalizing base with
  | nil => rfl
  | cons p rest ih =>
      rcases p with ⟨k1, v1⟩
      simp only [List.map_cons, List.mem_cons, not_or] at h
      have step : spreadInto base ((k1, v1) :: rest) = spreadInto (setKey base k1 v1) rest := rfl
      rw [step, ih (setKey base k1 v1) h.2]
      exact lookupField_setKey_other base k1 v1 k (fun he => h.1 he.symm)

theorem lookupField_spreadInto {α : Type} (base ext : List (String × α)) (k : String) (v : α)
    (hnd : (ext.map Prod.fst).Nodup) (hv : lookupField ext k = some v) :
    lookupField (spreadInto base ext) k = some v := by
  induction ext generalizing base with
  | nil => simp [lookupField] at hv
  | cons p rest ih =>
      rcases p with ⟨k1, v1⟩
      simp only [List.map_cons, List.nodup_cons] at hnd
      have step : spreadInto base ((k1, v1) :: rest) = spreadInto (setKey base k1 v1) rest := rfl
      by_cases hk : k1 = k
      · subst hk
        have hv1 : v1 = v := by simpa [lookupField] using hv
        subst hv1
        rw [step, lookupField_spreadInto_not_mem (setKey base k1 v1) rest k1 hnd.1]
        exact lookupField_setKey_self base k1 v1
      · have hv2 : lookupField rest k = some v := by simpa [lookupField, hk] using hv
        rw [step]
        exact ih (setKey base k1 v1) hnd.2 hv2

/-- Claim C8: when the postData object passed to `updatePost` itself holds
an `id` field, the body literal `\x7b id, ...postData \x7d` lets that field
override the positional id (the spread assigns it last), while the URL still
uses the positional id; the request body therefore serializes an object
whose `id` field is the one of postData. -/
theorem C8_updatePostIdOverride (w : World) (s : St) (id : Json)
    (fs : List (String × Json)) (v : Json)
    (hnd : (fs.map Prod.fst).Nodup) (hv : lookupField fs "id" = some v) :
    fetches (updatePost w id (Json.obj fs) s).2.trace
      = fetches s.trace ++
        [(API_BASE_URL ++ "/posts/" ++ Json.toDisplay id,
          { method := some "PUT", headers := [("Content-Type", "application/json")],
            body := stringify (Json.obj (objSpread [("id", id)] (Json.obj fs))) })] ∧
    lookupField (objSpread [("id", id)] (Json.obj fs)) "id" = some v := by
  refine ⟨(updatePost_spec w id (Json.obj fs) s).2.1, ?_⟩
  exact lookupField_spreadInto [("id", id)] fs "id" v hnd hv

/-- Witness for C8: with positional id 5 and a postData carrying id 9, the
body object carries id 9. -/
theorem C8_updatePostIdOverride_witness :
    ([("id", Json.num 9), ("title", Json.str "t")].map
        (Prod.fst (α := String) (β := Json))).Nodup ∧
    lookupField [("id", Json.num 9), ("title", Json.str "t")] "id" = some (Json.num 9) ∧
    (fetches (updatePost (constWorld (FetchOutcome.networkError "offline")) (Json.num 5)
        (Json.obj [("id", Json.num 9), ("title", Json.str "t")]) st0).2.trace
      = fetches st0.trace ++
        [(API_BASE_URL ++ "/posts/" ++ Json.toDisplay (Json.num 5),
          { method := some "PUT", headers := [("Content-Type", "application/json")],
            body := stringify (Json.obj (objSpread [("id", Json.num 5)]
              (Json.obj [("id", Json.num 9), ("title", Json.str "t")]))) })] ∧
     lookupField (objSpread [("id", Json.num 5)]
        (Json.obj [("id", Json.num 9), ("title", Json.str "t")])) "id" = some (Json.num 9)) :=
  ⟨by simp, rfl,
   C8_updatePostIdOverride (constWorld (FetchOutcome.networkError "offline")) st0 (Json.num 5)
     [("id", Json.num 9), ("title", Json.str "t")] (Json.num 9) (by simp) rfl⟩

theorem makeRequest_ok (w : World) (u : String) (o : RequestOptions) (s : St)
    (resp : HttpResponse) (j : Json)
    (h : w.oracle s.calls = FetchOutcome.got resp)
    (hok : respOk resp.status = true) (h204 : resp.status ≠ 204)
    (hbody : resp.bodyJson = some j) :
    (makeRequest w u o s).1 = Except.ok j := by
  unfold makeRequest
  rw [h]
  simp [hok, h204, hbody]

theorem filterCompleted_eq (ts : List Json)
    (hflag : ∀ t ∈ ts, Json.fieldE t "completed" = Except.ok (Json.bool true) ∨
                       Json.fieldE t "completed" = Except.ok (Json.bool false)) :
    filterCompleted ts = Except.ok (ts.filter completedPred) := by
  induction ts with
  | nil => rfl
  | cons t rest ih =>
      have ht := hflag t (List.mem_cons_self t rest)
      have hrest := ih (fun x hx => hflag x (List.mem_cons_of_mem t hx))
      rcases ht with h | h <;>
        simp [filterCompleted, h, hrest, List.filter_cons, completedPred, Json.truthy]

theorem getAllTodos_ok (w : World) (s : St) (resp : HttpResponse) (ts : List Json)
    (h : w.oracle s.calls = FetchOutcome.got resp)
    (hok : respOk resp.status = true) (h204 : resp.status ≠ 204)
    (hbody : resp.bodyJson = some (Json.arr ts)) :
    (getAllTodos w s).1 = Except.ok (Json.arr ts) := by
  unfold getAllTodos
  dsimp only
  rcases hmr : makeRequest w (API_BASE_URL ++ "/todos") {}
      (emit s (Effect.logged "📝 Fetching all todos...")) with ⟨r, s2⟩
  have hres := makeRequest_ok w (API_BASE_URL ++ "/todos") {}
    (emit s (Effect.logged "📝 Fetching all todos...")) resp (Json.arr ts) h hok h204 hbody
  rw [hmr] at hres
  simp only at hres
  subst hres
  simp [Json.lengthE, Json.fieldE]

theorem getCompletedTodos_ok (w : World) (s : St) (resp : HttpResponse) (ts : List Json)
    (h : w.oracle s.calls = FetchOutcome.got resp)
    (hok : respOk resp.status = true) (h204 : resp.status ≠ 204)
    (hbody : resp.bodyJson = some (Json.arr ts))
    (hflag : ∀ t ∈ ts, Json.fieldE t "completed" = Except.ok (Json.bool true) ∨
                       Json.fieldE t "completed" = Except.ok (Json.bool false)) :
    (getCompletedTodos w s).1 = Except.ok (Json.arr (ts.filter completedPred)) := by
  unfold getCompletedTodos
  dsimp only
  rcases hmr : makeRequest w (API_BASE_URL ++ "/todos") {}
      (emit s (Effect.logged "✅ Fetching completed todos...")) with ⟨r, s2⟩
  have hres := makeRequest_ok w (API_BASE_URL ++ "/todos") {}
    (emit s (Effect.logged "✅ Fetching completed todos...")) resp (Json.arr ts) h hok h204 hbody
  rw [hmr] at hres
  simp only at hres
  subst hres
  simp [jsFilterCompleted, filterCompleted_eq ts hflag, Json.lengthE, Json.fieldE]

/-- Claim C4: when the `/todos` fetch yields a list of todo objects (each
with a boolean `completed` flag), `getCompletedTodos` returns, of the list
`getAllTodos` would return for the same response, exactly the in-order
sublist of the elements whose flag is true: it contains every flag-true
element, excludes every flag-false element, and preserves the order. -/
theorem C4_completedTodos (w : World) (s : St) (resp : HttpResponse) (ts : List Json)
    (h : w.oracle s.calls = FetchOutcome.got resp)
    (hok : respOk resp.status = true) (h204 : resp.status ≠ 204)
    (hbody : resp.bodyJson = some (Json.arr ts))
    (hflag : ∀ t ∈ ts, Json.fieldE t "completed" = Except.ok (Json.bool true) ∨
                       Json.fieldE t "completed" = Except.ok (Json.bool false)) :
    (getAllTodos w s).1 = Except.ok (Json.arr ts) ∧
    ∃ cs, (getCompletedTodos w s).1 = Except.ok (Json.arr cs) ∧
      cs.Sublist ts ∧
      (∀ t ∈ cs, Json.fieldE t "completed" = Except.ok (Json.bool true)) ∧
      (∀ t ∈ ts, Json.fieldE t "completed" = Except.ok (Json.bool true) → t ∈ cs) ∧
      (∀ t ∈ ts, Json.fieldE t "completed" = Except.ok (Json.bool false) → t ∉ cs) := by
  refine ⟨getAllTodos_ok w s resp ts h hok h204 hbody,
    ts.filter completedPred,
    getCompletedTodos_ok w s resp ts h hok h204 hbody hflag,
    List.filter_sublist ts, ?_, ?_, ?_⟩
  · intro t htc
    rcases List.mem_filter.mp htc with ⟨hts, hp⟩
    rcases hflag t hts with hcase | hcase
    · exact hcase
    · exfalso
      rw [completedPred, hcase] at hp
      simp [Json.truthy] at hp
  · intro t hts htrue
    refine List.mem_filter.mpr ⟨hts, ?_⟩
    rw [completedPred, htrue]
    rfl
  · intro t hts hfalse htc
    rcases List.mem_filter.mp htc with ⟨_, hp⟩
    rw [completedPred, hfalse] at hp
    simp [Json.truthy] at hp

/-- Witness for C4 at a concrete two-element todo list with one completed
and one uncompleted element. -/
theorem C4_completedTodos_witness :
    (getAllTodos (constWorld (FetchOutcome.got todosResp)) st0).1
      = Except.ok (Json.arr [todoA, todoB]) ∧
    ∃ cs, (getCompletedTodos (constWorld (FetchOutcome.got todosResp)) st0).1
        = Except.ok (Json.arr cs) ∧
      cs.Sublist [todoA, todoB] ∧
      (∀ t ∈ cs, Json.fieldE t "completed" = Except.ok (Json.bool true)) ∧
      (∀ t ∈ [todoA, todoB],
        Json.fieldE t "completed" = Except.ok (Json.bool true) → t ∈ cs) ∧
      (∀ t ∈ [todoA, todoB],
        Json.fieldE t "completed" = Except.ok (Json.bool false) → t ∉ cs) :=
  C4_completedTodos (constWorld (FetchOutcome.got todosResp)) st0 todosResp [todoA, todoB]
    rfl rfl (by decide) rfl
    (by
      intro t ht
      rcases List.mem_cons.mp ht with h1 | h1
      · subst h1
        left
        rfl
      · rcases List.mem_cons.mp h1 with h2 | h2
        · subst h2
          right
          rfl
        · cases h2)

theorem fetchCount_eq_of (a b : List Effect) (p : String × FetchInit)
    (h : fetches a = fetches b ++ [p]) : fetchCount a = fetchCount b + 1 := by
  simp [fetchCount, h]

theorem fetchCount_emit_logged (s : St) (m : String) :
    fetchCount (emit s (Effect.logged m)).trace = fetchCount s.trace := by
  simp [fetchCount, emit]

theorem DemoAborts_step {w : World} {s : St} {url : String} {init : FetchInit}
    {F : Except String Json × St} {n base fc : Nat}
    {G : Json → St → Except String Unit × St}
    (hspec : WrapperSpec w s url init F)
    (hbase : s.calls = base) (hfc : fetchCount s.trace ≤ fc)
    (hG : ∀ v t, F = (Except.ok v, t) → DemoAborts w (base + 1) (fc + 1) n (G v t)) :
    DemoAborts w base fc (n + 1) (demoSeq F G) := by
  rcases hF : F with ⟨r, t⟩
  rw [hF] at hspec
  obtain ⟨hc, hf, hfl⟩ := hspec
  have hfct : fetchCount t.trace = fetchCount s.trace + 1 := fetchCount_eq_of _ _ _ hf
  cases r with
  | error e =>
      intro k hk hfail
      refine ⟨⟨e, t, rfl⟩, ?_⟩
      show fetchCount t.trace ≤ fc + k + 1
      omega
  | ok v =>
      intro k hk hfail
      cases k with
      | zero =>
          exfalso
          rcases hfl (by rw [hbase]; simpa using hfail) with ⟨e, he⟩
          simp at he
      | succ k2 =>
          have hG2 := hG v t hF k2 (by omega) (by
            have harith : base + 1 + k2 = base + (k2 + 1) := by omega
            rw [harith]
            exact hfail)
          rcases hG2 with ⟨hex, hb⟩
          refine ⟨hex, ?_⟩
          show fetchCount (G v t).2.trace ≤ fc + (k2 + 1) + 1
          omega

theorem DemoAborts_read {w : World} {s : St} {α : Type} {x : Except String α}
    {n base fc : Nat} {G : α → Except String Unit × St}
    (hfc : fetchCount s.trace ≤ fc)
    (hG : ∀ v, x = Except.ok v → DemoAborts w base fc n (G v)) :
    DemoAborts w base fc n (demoRead s x G) := by
  cases hx : x with
  | error e =>
      intro k hk hfail
      refine ⟨⟨e, s, rfl⟩, ?_⟩
      show fetchCount s.trace ≤ fc + k + 1
      omega
  | ok v => exact hG v hx

theorem DemoAborts_done (w : World) (base fc : Nat) (out : Except String Unit × St) :
    DemoAborts w base fc 0 out := by
  intro k hk hfail
  exact absurd hk (by omega)

theorem DemoAborts_cast {w : World} {base fc base2 fc2 n : Nat}
    {out : Except String Unit × St}
    (h : DemoAborts w base fc n out) (hb : base = base2) (hf : fc ≤ fc2) :
    DemoAborts w base2 fc2 n out := by
  intro k hk hfail
  rcases h k hk (by rw [hb]; exact hfail) with ⟨hex, hbound⟩
  exact ⟨hex, by omega⟩

theorem demoTodos_aborts (w : World) (userPosts comments users albums album1Photos : Json) (s : St) :
    DemoAborts w s.calls (fetchCount s.trace) 2
      (demoTodos w userPosts comments users albums album1Photos s) := by
  unfold demoTodos
  refine DemoAborts_step (getAllTodos_spec w s) rfl le_rfl ?_
  intro v0 t0 h0
  have hsp0 := getAllTodos_spec w s
  rw [h0] at hsp0
  have hc0 : t0.calls = s.calls + 1 := hsp0.1
  have hf0 : fetchCount t0.trace = fetchCount s.trace + 1 :=
    fetchCount_eq_of _ _ _ hsp0.2.1
  refine DemoAborts_step (getCompletedTodos_spec w t0) hc0 (le_of_eq hf0) ?_
  intro v1 t1 h1
  have hsp1 := getCompletedTodos_spec w t0
  rw [h1] at hsp1
  have hc1 : t1.calls = s.calls + 2 := by
    have h2 : t1.calls = t0.calls + 1 := hsp1.1
    omega
  have hf1 : fetchCount t1.trace = fetchCount s.trace + 2 := by
    have h2 : fetchCount t1.trace = fetchCount t0.trace + 1 :=
      fetchCount_eq_of _ _ _ hsp1.2.1
    omega
  exact DemoAborts_done w _ _ _

theorem demoAlbums_aborts (w : World) (userPosts comments users : Json) (s : St) :
    DemoAborts w s.calls (fetchCount s.trace) 4 (demoAlbums w userPosts comments users s) := by
  unfold demoAlbums
  refine DemoAborts_step (getAllAlbums_spec w s) rfl le_rfl ?_
  intro v0 t0 h0
  have hsp0 := getAllAlbums_spec w s
  rw [h0] at hsp0
  have hc0 : t0.calls = s.calls + 1 := hsp0.1
  have hf0 : fetchCount t0.trace = fetchCount s.trace + 1 :=
    fetchCount_eq_of _ _ _ hsp0.2.1
  refine DemoAborts_step (getAlbumPhotos_spec w (Json.num 1) t0) hc0 (le_of_eq hf0) ?_
  intro v1 t1 h1
  have hsp1 := getAlbumPhotos_spec w (Json.num 1) t0
  rw [h1] at hsp1
  have hc1 : t1.calls = s.calls + 2 := by
    have h2 : t1.calls = t0.calls + 1 := hsp1.1
    omega
  have hf1 : fetchCount t1.trace = fetchCount s.trace + 2 := by
    have h2 : fetchCount t1.trace = fetchCount t0.trace + 1 :=
      fetchCount_eq_of _ _ _ hsp1.2.1
    omega
  refine DemoAborts_read (le_of_eq hf1) ?_
  intro sample hr_sample
  refine DemoAborts_cast (demoTodos_aborts w userPosts comments users v0 v1
    (emit (emit (emit (emit t1 (Effect.logged ("Sample photo: " ++ sample))) (Effect.logged "\n")) (Effect.logged "5️⃣ TODOS DEMO")) (Effect.logged (dashes 15)))) hc1 ?_
  simp only [fetchCount_emit_logged]
  omega

theorem demoUsers_aborts (w : World) (userPosts comments : Json) (s : St) :
    DemoAborts w s.calls (fetchCount s.trace) 8 (demoUsers w userPosts comments s) := by
  unfold demoUsers
  refine DemoAborts_step (getAllUsers_spec w s) rfl le_rfl ?_
  intro v0 t0 h0
  have hsp0 := getAllUsers_spec w s
  rw [h0] at hsp0
  have hc0 : t0.calls = s.calls + 1 := hsp0.1
  have hf0 : fetchCount t0.trace = fetchCount s.trace + 1 :=
    fetchCount_eq_of _ _ _ hsp0.2.1
  refine DemoAborts_step (getUser_spec w (Json.num 1) t0) hc0 (le_of_eq hf0) ?_
  intro v1 t1 h1
  have hsp1 := getUser_spec w (Json.num 1) t0
  rw [h1] at hsp1
  have hc1 : t1.calls = s.calls + 2 := by
    have h2 : t1.calls = t0.calls + 1 := hsp1.1
    omega
  have hf1 : fetchCount t1.trace = fetchCount s.trace + 2 := by
    have h2 : fetchCount t1.trace = fetchCount t0.trace + 1 :=
      fetchCount_eq_of _ _ _ hsp1.2.1
    omega
  refine DemoAborts_step (getUserAlbums_spec w (Json.num 1) t1) hc1 (le_of_eq hf1) ?_
  intro v2 t2 h2
  have hsp2 := getUserAlbums_spec w (Json.num 1) t1
  rw [h2] at hsp2
  have hc2 : t2.calls = s.calls + 3 := by
    have h2 : t2.calls = t1.calls + 1 := hsp2.1
    omega
  have hf2 : fetchCount t2.trace = fetchCount s.trace + 3 := by
    have h2 : fetchCount t2.trace = fetchCount t1.trace + 1 :=
      fetchCount_eq_of _ _ _ hsp2.2.1
    omega
  refine DemoAborts_step (getUserTodos_spec w (Json.num 1) t2) hc2 (le_of_eq hf2) ?_
  intro v3 t3 h3
  have hsp3 := getUserTodos_spec w (Json.num 1) t2
  rw [h3] at hsp3
  have hc3 : t3.calls = s.calls + 4 := by
    have h2 : t3.calls = t2.calls + 1 := hsp3.1
    omega
  have hf3 : fetchCount t3.trace = fetchCount s.trace + 4 := by
    have h2 : fetchCount t3.trace = fetchCount t2.trace + 1 :=
      fetchCount_eq_of _ _ _ hsp3.2.1
    omega
  refine DemoAborts_cast (demoAlbums_aborts w userPosts comments v0
    (emit (emit (emit t3 (Effect.logged "\n")) (Effect.logged "4️⃣ ALBUMS & PHOTOS DEMO")) (Effect.logged (dashes 25)))) hc3 ?_
  simp only [fetchCount_emit_logged]
  omega

theorem demoComments_aborts (w : World) (userPosts : Json) (s : St) :
    DemoAborts w s.calls (fetchCount s.trace) 9 (demoComments w userPosts s) := by
  unfold demoComments
  refine DemoAborts_step (getCommentsForPost_spec w (Json.num 1) s) rfl le_rfl ?_
  intro v0 t0 h0
  have hsp0 := getCommentsForPost_spec w (Json.num 1) s
  rw [h0] at hsp0
  have hc0 : t0.calls = s.calls + 1 := hsp0.1
  have hf0 : fetchCount t0.trace = fetchCount s.trace + 1 :=
    fetchCount_eq_of _ _ _ hsp0.2.1
  refine DemoAborts_read (le_of_eq hf0) ?_
  intro preview hr_preview
  refine DemoAborts_cast (demoUsers_aborts w userPosts v0
    (emit (emit (emit (emit t0 (Effect.logged ("First comment: \"" ++ preview ++ "...\""))) (Effect.logged "\n")) (Effect.logged "3️⃣ USERS DEMO")) (Effect.logged (dashes 20)))) hc0 ?_
  simp only [fetchCount_emit_logged]
  omega

theorem demoPosts_aborts (w : World) (s : St) :
    DemoAborts w s.calls (fetchCount s.trace) 14 (demoPosts w s) := by
  unfold demoPosts
  refine DemoAborts_step (getPost_spec w (Json.num 1) s) rfl le_rfl ?_
  intro v0 t0 h0
  have hsp0 := getPost_spec w (Json.num 1) s
  rw [h0] at hsp0
  have hc0 : t0.calls = s.calls + 1 := hsp0.1
  have hf0 : fetchCount t0.trace = fetchCount s.trace + 1 :=
    fetchCount_eq_of _ _ _ hsp0.2.1
  refine DemoAborts_step (getPostsByUser_spec w (Json.num 1) t0) hc0 (le_of_eq hf0) ?_
  intro v1 t1 h1
  have hsp1 := getPostsByUser_spec w (Json.num 1) t0
  rw [h1] at hsp1
  have hc1 : t1.calls = s.calls + 2 := by
    have h2 : t1.calls = t0.calls + 1 := hsp1.1
    omega
  have hf1 : fetchCount t1.trace = fetchCount s.trace + 2 := by
    have h2 : fetchCount t1.trace = fetchCount t0.trace + 1 :=
      fetchCount_eq_of _ _ _ hsp1.2.1
    omega
  refine DemoAborts_step (createPost_spec w (Json.obj [("title", Json.str "My Test Post"), ("body", Json.str "This is a test post created via API"), ("userId", Json.num 1)]) t1) hc1 (le_of_eq hf1) ?_
  intro v2 t2 h2
  have hsp2 := createPost_spec w (Json.obj [("title", Json.str "My Test Post"), ("body", Json.str "This is a test post created via API"), ("userId", Json.num 1)]) t1
  rw [h2] at hsp2
  have hc2 : t2.calls = s.calls + 3 := by
    have h2 : t2.calls = t1.calls + 1 := hsp2.1
    omega
  have hf2 : fetchCount t2.trace = fetchCount s.trace + 3 := by
    have h2 : fetchCount t2.trace = fetchCount t1.trace + 1 :=
      fetchCount_eq_of _ _ _ hsp2.2.1
    omega
  refine DemoAborts_read (le_of_eq hf2) ?_
  intro newPostId1 hr_newPostId1
  refine DemoAborts_step (updatePost_spec w newPostId1 (Json.obj [("title", Json.str "Updated Test Post"), ("body", Json.str "This post has been updated"), ("userId", Json.num 1)]) t2) hc2 (le_of_eq hf2) ?_
  intro v3 t3 h3
  have hsp3 := updatePost_spec w newPostId1 (Json.obj [("title", Json.str "Updated Test Post"), ("body", Json.str "This post has been updated"), ("userId", Json.num 1)]) t2
  rw [h3] at hsp3
  have hc3 : t3.calls = s.calls + 4 := by
    have h2 : t3.calls = t2.calls + 1 := hsp3.1
    omega
  have hf3 : fetchCount t3.trace = fetchCount s.trace + 4 := by
    have h2 : fetchCount t3.trace = fetchCount t2.trace + 1 :=
      fetchCount_eq_of _ _ _ hsp3.2.1
    omega
  refine DemoAborts_read (le_of_eq hf3) ?_
  intro newPostId2 hr_newPostId2
  refine DemoAborts_step (patchPost_spec w newPostId2 (Json.obj [("title", Json.str "Patched Test Post")]) t3) hc3 (le_of_eq hf3) ?_
  intro v4 t4 h4
  have hsp4 := patchPost_spec w newPostId2 (Json.obj [("title", Json.str "Patched Test Post")]) t3
  rw [h4] at hsp4
  have hc4 : t4.calls = s.calls + 5 := by
    have h2 : t4.calls = t3.calls + 1 := hsp4.1
    omega
  have hf4 : fetchCount t4.trace = fetchCount s.trace + 5 := by
    have h2 : fetchCount t4.trace = fetchCount t3.trace + 1 :=
      fetchCount_eq_of _ _ _ hsp4.2.1
    omega
  refine DemoAborts_cast (demoComments_aborts w v1
    (emit (emit (emit t4 (Effect.logged "\n")) (Effect.logged "2️⃣ COMMENTS DEMO")) (Effect.logged (dashes 20)))) hc4 ?_
  simp only [fetchCount_emit_logged]
  omega

theorem runFullDemoBody_aborts (w : World) (s : St) :
    DemoAborts w s.calls (fetchCount s.trace) 14 (runFullDemoBody w s) := by
  unfold runFullDemoBody
  refine DemoAborts_cast (demoPosts_aborts w
    (emit (emit s (Effect.logged "1️⃣ POSTS DEMO")) (Effect.logged (dashes 20)))) rfl ?_
  simp only [fetchCount_emit_logged]
  exact le_rfl

theorem quickTestBody_aborts (w : World) (s : St) :
    DemoAborts w s.calls (fetchCount s.trace) 4 (quickTestBody w s) := by
  unfold quickTestBody
  refine DemoAborts_step (getPost_spec w (Json.num 1) s) rfl le_rfl ?_
  intro v0 t0 h0
  have hsp0 := getPost_spec w (Json.num 1) s
  rw [h0] at hsp0
  have hc0 : t0.calls = s.calls + 1 := hsp0.1
  have hf0 : fetchCount t0.trace = fetchCount s.trace + 1 :=
    fetchCount_eq_of _ _ _ hsp0.2.1
  refine DemoAborts_step (createPost_spec w (Json.obj [("title", Json.str "Quick Test Post"), ("body", Json.str "Testing POST request"), ("userId", Json.num 99)]) (emit t0 (Effect.logged "✅ GET request successful"))) hc0
    (by simp only [fetchCount_emit_logged]; omega) ?_
  intro v1 t1 h1
  have hsp1 := createPost_spec w (Json.obj [("title", Json.str "Quick Test Post"), ("body", Json.str "Testing POST request"), ("userId", Json.num 99)]) (emit t0 (Effect.logged "✅ GET request successful"))
  rw [h1] at hsp1
  have hc1 : t1.calls = s.calls + 2 := by
    have h2 : t1.calls = t0.calls + 1 := hsp1.1
    omega
  have hf1 : fetchCount t1.trace = fetchCount s.trace + 2 := by
    have h2 : fetchCount t1.trace = fetchCount (emit t0 (Effect.logged "✅ GET request successful")).trace + 1 :=
      fetchCount_eq_of _ _ _ hsp1.2.1
    simp only [fetchCount_emit_logged] at h2
    omega
  refine DemoAborts_step (getPostsByUser_spec w (Json.num 1) (emit t1 (Effect.logged "✅ POST request successful"))) hc1
    (by simp only [fetchCount_emit_logged]; omega) ?_
  intro v2 t2 h2
  have hsp2 := getPostsByUser_spec w (Json.num 1) (emit t1 (Effect.logged "✅ POST request successful"))
  rw [h2] at hsp2
  have hc2 : t2.calls = s.calls + 3 := by
    have h2 : t2.calls = t1.calls + 1 := hsp2.1
    omega
  have hf2 : fetchCount t2.trace = fetchCount s.trace + 3 := by
    have h2 : fetchCount t2.trace = fetchCount (emit t1 (Effect.logged "✅ POST request successful")).trace + 1 :=
      fetchCount_eq_of _ _ _ hsp2.2.1
    simp only [fetchCount_emit_logged] at h2
    omega
  refine DemoAborts_step (getCommentsForPost_spec w (Json.num 1) (emit t2 (Effect.logged "✅ Query parameters working"))) hc2
    (by simp only [fetchCount_emit_logged]; omega) ?_
  intro v3 t3 h3
  have hsp3 := getCommentsForPost_spec w (Json.num 1) (emit t2 (Effect.logged "✅ Query parameters working"))
  rw [h3] at hsp3
  have hc3 : t3.calls = s.calls + 4 := by
    have h2 : t3.calls = t2.calls + 1 := hsp3.1
    omega
  have hf3 : fetchCount t3.trace = fetchCount s.trace + 4 := by
    have h2 : fetchCount t3.trace = fetchCount (emit t2 (Effect.logged "✅ Query parameters working")).trace + 1 :=
      fetchCount_eq_of _ _ _ hsp3.2.1
    simp only [fetchCount_emit_logged] at h2
    omega
  exact DemoAborts_done w _ _ _

/-- Claim C7: in any run of runFullDemo (respectively quickTest) in which
the fetch underlying the k-th wrapper call of the fixed sequence fails, no
wrapper call after the failing step issues its request (at most k + 1
fetches appear in the final trace), and the driver logs a failure summary
on the error channel as the last effect. -/
theorem C7_failureAborts (w : World) (s : St) (k : Nat) :
    (k < 14 → outcomeFails (w.oracle (s.calls + k)) = true →
      fetchCount (runFullDemo w s).2.trace ≤ fetchCount s.trace + k + 1 ∧
      ∃ e pre, (runFullDemo w s).2.trace
        = pre ++ [Effect.errorLogged ("❌ Demo failed: " ++ e)]) ∧
    (k < 4 → outcomeFails (w.oracle (s.calls + k)) = true →
      fetchCount (quickTest w s).2.trace ≤ fetchCount s.trace + k + 1 ∧
      ∃ e pre, (quickTest w s).2.trace
        = pre ++ [Effect.errorLogged ("❌ Quick test failed: " ++ e)]) := by
  constructor
  · intro hk hfail
    have hb := runFullDemoBody_aborts w
      (emit (emit s (Effect.logged "🚀 Starting JSONPlaceholder API Demo"))
        (Effect.logged "=====================================\n")) k hk hfail
    rcases hb with ⟨⟨e, t, he⟩, hbound⟩
    rw [he] at hbound
    have hb2 : fetchCount t.trace ≤
        fetchCount (emit (emit s (Effect.logged "🚀 Starting JSONPlaceholder API Demo"))
          (Effect.logged "=====================================\n")).trace + k + 1 := hbound
    simp only [fetchCount_emit_logged] at hb2
    unfold runFullDemo
    dsimp only
    rw [he]
    constructor
    · show fetchCount (emit t (Effect.errorLogged ("❌ Demo failed: " ++ e))).trace ≤
        fetchCount s.trace + k + 1
      have h3 : fetchCount (emit t (Effect.errorLogged ("❌ Demo failed: " ++ e))).trace
          = fetchCount t.trace := by
        simp [fetchCount, emit]
      omega
    · exact ⟨e, t.trace, rfl⟩
  · intro hk hfail
    have hb := quickTestBody_aborts w
      (emit s (Effect.logged "⚡ Running Quick Test...\n")) k hk hfail
    rcases hb with ⟨⟨e, t, he⟩, hbound⟩
    rw [he] at hbound
    have hb2 : fetchCount t.trace ≤
        fetchCount (emit s (Effect.logged "⚡ Running Quick Test...\n")).trace + k + 1 := hbound
    simp only [fetchCount_emit_logged] at hb2
    unfold quickTest
    dsimp only
    rw [he]
    constructor
    · show fetchCount (emit t (Effect.errorLogged ("❌ Quick test failed: " ++ e))).trace ≤
        fetchCount s.trace + k + 1
      have h3 : fetchCount (emit t (Effect.errorLogged ("❌ Quick test failed: " ++ e))).trace
          = fetchCount t.trace := by
        simp [fetchCount, emit]
      omega
    · exact ⟨e, t.trace, rfl⟩

/-- Witness for C7: a world whose first fetch already fails, at k equal 0,
for both demo drivers. -/
theorem C7_failureAborts_witness :
    (fetchCount (runFullDemo (constWorld (FetchOutcome.networkError "offline")) st0).2.trace
        ≤ fetchCount st0.trace + 0 + 1 ∧
      ∃ e pre, (runFullDemo (constWorld (FetchOutcome.networkError "offline")) st0).2.trace
        = pre ++ [Effect.errorLogged ("❌ Demo failed: " ++ e)]) ∧
    (fetchCount (quickTest (constWorld (FetchOutcome.networkError "offline")) st0).2.trace
        ≤ fetchCount st0.trace + 0 + 1 ∧
      ∃ e pre, (quickTest (constWorld (FetchOutcome.networkError "offline")) st0).2.trace
        = pre ++ [Effect.errorLogged ("❌ Quick test failed: " ++ e)]) :=
  ⟨(C7_failureAborts (constWorld (FetchOutcome.networkError "offline")) st0 0).1
      (by decide) rfl,
   (C7_failureAborts (constWorld (FetchOutcome.networkError "offline")) st0 0).2
      (by decide) rfl⟩

/-- Claim C9: the promises returned by runFullDemo and quickTest always
resolve and never reject: both calls return the ok value for every world,
and whenever the try-block raises an error the driver appends exactly one
error-channel log carrying the caught message and swallows the error. -/
theorem C9_demosResolve (w : World) (s : St) :
    (runFullDemo w s).1 = Except.ok () ∧
    (quickTest w s).1 = Except.ok () ∧
    (∀ e t, runFullDemoBody w
        (emit (emit s (Effect.logged "🚀 Starting JSONPlaceholder API Demo"))
          (Effect.logged "=====================================\n")) = (Except.error e, t) →
      runFullDemo w s
        = (Except.ok (), emit t (Effect.errorLogged ("❌ Demo failed: " ++ e)))) ∧
    (∀ e t, quickTestBody w (emit s (Effect.logged "⚡ Running Quick Test...\n"))
        = (Except.error e, t) →
      quickTest w s
        = (Except.ok (), emit t (Effect.errorLogged ("❌ Quick test failed: " ++ e)))) := by
  refine ⟨?_, ?_, ?_, ?_⟩
  · unfold runFullDemo
    dsimp only
    rcases runFullDemoBody w
        (emit (emit s (Effect.logged "🚀 Starting JSONPlaceholder API Demo"))
          (Effect.logged "=====================================\n")) with ⟨r, t⟩
    cases r <;> rfl
  · unfold quickTest
    dsimp only
    rcases quickTestBody w (emit s (Effect.logged "⚡ Running Quick Test...\n")) with ⟨r, t⟩
    cases r <;> rfl
  · intro e t he
    unfold runFullDemo
    dsimp only
    rw [he]
  · intro e t he
    unfold quickTest
    dsimp only
    rw [he]

/-- Witness for C9 at a world whose fetches all fail. -/
theorem C9_demosResolve_witness :
    (runFullDemo (constWorld (FetchOutcome.networkError "offline")) st0).1 = Except.ok () ∧
    (quickTest (constWorld (FetchOutcome.networkError "offline")) st0).1 = Except.ok () :=
  ⟨(C9_demosResolve (constWorld (FetchOutcome.networkError "offline")) st0).1,
   (C9_demosResolve (constWorld (FetchOutcome.networkError "offline")) st0).2.1⟩
